import Mathlib

/-!
Shallow embedding of the CrazyTrip business review service
(`src/handlers.rs`, `src/database.rs`, `src/models.rs`).

The relational store is modelled as an explicit `DbState` record of row
lists; every database operation is a pure function threading the state.
Transactions follow sqlx semantics: writes are applied to a tentative
state and the original state is returned unchanged when any statement of
the transaction fails (rollback on drop).

Conventions:
* `Uuid` and timestamps are modelled as `Nat` (only equality and ordering
  are ever used on them).
* `f64` coordinate fields are modelled as `Int`: they are stored and
  copied but never computed with.
* JSON `metadata` payloads are modelled as opaque `String`s.
* The only database error that the modelled logic branches on is
  `RowNotFound` (`fetch_one` on zero rows / `rows_affected() == 0`);
  connection-level failures are outside the embedding.
-/

namespace BusinessReview

abbrev Uuid := Nat
abbrev Timestamp := Nat

/-- `BusinessVerificationStatus` from `src/models.rs`. -/
inductive BusinessVerificationStatus where
  | Pending
  | UnderReview
  | Approved
  | Rejected
  | Suspended
  deriving DecidableEq, Repr

/-- `ReviewAction` from `src/models.rs`. -/
inductive ReviewAction where
  | Approve
  | Reject
  | RequestMoreInfo
  | Suspend
  | Resume
  | Comment
  deriving DecidableEq, Repr

/-- `BusinessPromotionType` from `src/models.rs`. -/
inductive BusinessPromotionType where
  | Discount
  | Contest
  | Event
  | Challenge
  deriving DecidableEq, Repr

/-- `BusinessPromotionStatus` from `src/models.rs`. -/
inductive BusinessPromotionStatus where
  | Draft
  | Scheduled
  | Active
  | Expired
  | Cancelled
  deriving DecidableEq, Repr

/-- Modelled from the spec: the promotion `scope` enum (Business-wide or
Location-specific). The declaration is absent from `src/models.rs` (the
registration-centric models file is not in the sources) but the type is
used throughout `src/database.rs` as `BusinessPromotionScope`. -/
inductive BusinessPromotionScope where
  | Business
  | Location
  deriving DecidableEq, Repr

/-- `BusinessRegistration` row (`business_registration_requests` table),
fields as in `src/models.rs` / the column lists of `src/database.rs`. -/
structure BusinessRegistration where
  id : Uuid
  user_id : Uuid
  business_id : Option Uuid
  name : String
  category : String
  address : String
  description : Option String
  phone : Option String
  website : Option String
  tax_id : Option String
  document_urls : List String
  is_multi_user_team : Bool
  status : BusinessVerificationStatus
  owner_email : String
  owner_username : String
  rejection_reason : Option String
  reviewer_notes : Option String
  reviewer_id : Option Uuid
  reviewer_name : Option String
  submitted_at : Timestamp
  updated_at : Timestamp
  deriving DecidableEq, Repr

/-- `NewBusinessRegistration` helper struct from `src/models.rs`. -/
structure NewBusinessRegistration where
  id : Uuid
  user_id : Uuid
  business_id : Option Uuid
  name : String
  category : String
  address : String
  description : Option String
  phone : Option String
  website : Option String
  tax_id : Option String
  document_urls : List String
  is_multi_user_team : Bool
  status : BusinessVerificationStatus
  owner_email : String
  owner_username : String
  rejection_reason : Option String
  reviewer_notes : Option String
  reviewer_id : Option Uuid
  reviewer_name : Option String
  submitted_at : Timestamp
  updated_at : Timestamp
  deriving DecidableEq, Repr

/-- `BusinessReviewEvent` row (`business_review_events` table) from
`src/models.rs`. `id` and `created_at` are database-generated; the
modelled insert receives them as parameters. -/
structure BusinessReviewEvent where
  id : Uuid
  registration_id : Uuid
  reviewer_id : Option Uuid
  reviewer_name : Option String
  action : ReviewAction
  notes : Option String
  rejection_reason : Option String
  created_at : Timestamp
  deriving DecidableEq, Repr

/-- Registration-centric `BusinessLocation` row (`business_locations`
table); fields follow the column lists used by `src/database.rs`
(`list_locations_for_registration`, `update_location`, ...). -/
structure BusinessLocation where
  id : Uuid
  registration_id : Uuid
  business_id : Option Uuid
  label : Option String
  formatted_address : String
  street : Option String
  city : Option String
  state_region : Option String
  postal_code : Option String
  country : Option String
  latitude : Option Int
  longitude : Option Int
  google_place_id : Option String
  timezone : Option String
  phone : Option String
  is_primary : Bool
  notes : Option String
  metadata : String
  created_at : Timestamp
  updated_at : Timestamp
  deriving DecidableEq, Repr

/-- Registration-centric `NewBusinessLocation` helper (the insert column
list of `insert_location_with_tx` in `src/database.rs`; `created_at` and
`updated_at` are database defaults). -/
structure NewBusinessLocation where
  id : Uuid
  registration_id : Uuid
  business_id : Option Uuid
  label : Option String
  formatted_address : String
  street : Option String
  city : Option String
  state_region : Option String
  postal_code : Option String
  country : Option String
  latitude : Option Int
  longitude : Option Int
  google_place_id : Option String
  timezone : Option String
  phone : Option String
  is_primary : Bool
  notes : Option String
  metadata : String
  deriving DecidableEq, Repr

/-- Registration-centric `BusinessPromotion` row (`business_promotions`
table); fields follow the column lists of `src/database.rs`. -/
structure BusinessPromotion where
  id : Uuid
  registration_id : Uuid
  unit_id : Option Uuid
  title : String
  subtitle : Option String
  description : Option String
  promotion_type : BusinessPromotionType
  scope : BusinessPromotionScope
  status : BusinessPromotionStatus
  image_url : Option String
  prize : Option String
  reward_points : Int
  discount_percent : Option Int
  max_claims : Option Int
  per_user_limit : Option Int
  total_claims : Int
  requires_check_in : Bool
  requires_purchase : Bool
  terms : Option String
  metadata : String
  starts_at : Timestamp
  ends_at : Timestamp
  published_at : Option Timestamp
  created_by : Option Uuid
  updated_by : Option Uuid
  created_at : Timestamp
  updated_at : Timestamp
  deriving DecidableEq, Repr

/-- Registration-centric `NewBusinessPromotion` helper (the insert column
list of `create_promotion` in `src/database.rs`). -/
structure NewBusinessPromotion where
  id : Uuid
  registration_id : Uuid
  unit_id : Option Uuid
  title : String
  subtitle : Option String
  description : Option String
  promotion_type : BusinessPromotionType
  scope : BusinessPromotionScope
  status : BusinessPromotionStatus
  image_url : Option String
  prize : Option String
  reward_points : Int
  discount_percent : Option Int
  max_claims : Option Int
  per_user_limit : Option Int
  total_claims : Int
  requires_check_in : Bool
  requires_purchase : Bool
  terms : Option String
  metadata : String
  starts_at : Timestamp
  ends_at : Timestamp
  published_at : Option Timestamp
  created_by : Option Uuid
  updated_by : Option Uuid
  created_at : Timestamp
  updated_at : Timestamp
  deriving DecidableEq, Repr

/-- A row of the `business_promotion_locations` join table. -/
structure BusinessPromotionLocation where
  promotion_id : Uuid
  location_id : Uuid
  deriving DecidableEq, Repr

/-- `BusinessPromotionWithLocations` composite payload. -/
structure BusinessPromotionWithLocations where
  promotion : BusinessPromotion
  locations : List BusinessLocation
  deriving DecidableEq, Repr

/-- `BusinessRegistrationWithHistory` composite payload returned by the
registration/review handlers. -/
structure BusinessRegistrationWithHistory where
  registration : BusinessRegistration
  locations : List BusinessLocation
  promotions : List BusinessPromotionWithLocations
  history : List BusinessReviewEvent
  deriving DecidableEq, Repr

/-- The relational store: one list of rows per table used by the claims. -/
structure DbState where
  registrations : List BusinessRegistration
  review_events : List BusinessReviewEvent
  locations : List BusinessLocation
  promotions : List BusinessPromotion
  promotion_locations : List BusinessPromotionLocation
  deriving DecidableEq, Repr

/-- `ReviewActionRequest` DTO from `src/models.rs`. -/
structure ReviewActionRequest where
  action : ReviewAction
  notes : Option String
  rejection_reason : Option String
  reviewer_id : Option Uuid
  reviewer_name : Option String
  deriving DecidableEq, Repr

/-- Outcome of an HTTP handler: payload on success plus the error
classifications the handlers produce. -/
inductive HandlerResult (α : Type) where
  | ok (value : α)
  | created (value : α)
  | badRequest (message : String)
  | notFound (message : String)
  | internalError (message : String)
  deriving DecidableEq, Repr

/-! ### Generic helpers -/

/-- Rust `str::trim` (used on reviewer names): strip leading and trailing
whitespace. -/
def trimString (s : String) : String :=
  String.mk
    ((s.data.dropWhile Char.isWhitespace).reverse.dropWhile Char.isWhitespace).reverse

/-- SQL `COALESCE(a, b)` on nullable values. -/
def coalesce (a b : Option α) : Option α :=
  match a with
  | some v => some v
  | none => b

/-- SQL `UPDATE ... SET ... WHERE p`: apply `f` to every row matching `p`. -/
def updateRows (p : α → Bool) (f : α → α) (l : List α) : List α :=
  l.map (fun r => if p r then f r else r)

/-- Insertion step of the sort used to model SQL `ORDER BY`. `le a b`
means `a` may appear before `b`. -/
def insertBy (le : α → α → Bool) (a : α) : List α → List α
  | [] => [a]
  | b :: bs => if le a b then a :: b :: bs else b :: insertBy le a bs

/-- Insertion sort modelling SQL `ORDER BY` (tie order is unspecified by
SQL, so any sort faithful to the comparator is a valid embedding). -/
def sortBy (le : α → α → Bool) : List α → List α
  | [] => []
  | a :: as => insertBy le a (sortBy le as)

/-- `Database::dedupe_uuids` (src/database.rs): keep the first occurrence
of each id, in order. -/
def dedupe_uuids_go (seen : List Uuid) : List Uuid → List Uuid
  | [] => []
  | id :: rest =>
    if id ∈ seen then dedupe_uuids_go seen rest
    else id :: dedupe_uuids_go (id :: seen) rest

/-- `Database::dedupe_uuids` (src/database.rs). -/
def dedupe_uuids (ids : List Uuid) : List Uuid := dedupe_uuids_go [] ids

/-! ### Database operations: registrations and the review workflow -/

/-- `Database::get_registration_by_id` (src/database.rs): `fetch_optional`
on `WHERE id = $1`. -/
def get_registration_by_id (s : DbState) (registration_id : Uuid) :
    Option BusinessRegistration :=
  s.registrations.find? (fun r => decide (r.id = registration_id))

/-- The row produced by the `UPDATE business_registration_requests` inside
`record_review_event`: status and rejection_reason overwritten, reviewer
fields updated with `COALESCE` (keep previous on NULL), `updated_at = NOW()`. -/
def applyReviewUpdate (reviewer_id : Option Uuid) (reviewer_name : Option String)
    (notes rejection_reason : Option String) (new_status : BusinessVerificationStatus)
    (now : Timestamp) (r : BusinessRegistration) : BusinessRegistration :=
  { r with
    status := new_status
    rejection_reason := rejection_reason
    reviewer_notes := coalesce notes r.reviewer_notes
    reviewer_id := coalesce reviewer_id r.reviewer_id
    reviewer_name := coalesce reviewer_name r.reviewer_name
    updated_at := now }

/-- `Database::record_review_event` (src/database.rs): one transaction that
inserts a `business_review_events` row and updates the registration row.
`event_id`/`now` stand for the database-generated serial id and `NOW()`.
Returns `(s, none)` — rollback, no observable change — when the
`UPDATE ... RETURNING` finds no row (`fetch_one` → `RowNotFound`). -/
def record_review_event (s : DbState) (now : Timestamp) (event_id : Uuid)
    (registration_id : Uuid) (reviewer_id : Option Uuid) (reviewer_name : Option String)
    (action : ReviewAction) (notes : Option String) (rejection_reason : Option String)
    (new_status : BusinessVerificationStatus) :
    DbState × Option BusinessRegistration :=
  let newEvent : BusinessReviewEvent :=
    { id := event_id
      registration_id := registration_id
      reviewer_id := reviewer_id
      reviewer_name := reviewer_name
      action := action
      notes := notes
      rejection_reason := rejection_reason
      created_at := now }
  let tentative := { s with review_events := s.review_events ++ [newEvent] }
  match tentative.registrations.find? (fun r => decide (r.id = registration_id)) with
  | none => (s, none)
  | some row =>
    let f := applyReviewUpdate reviewer_id reviewer_name notes rejection_reason new_status now
    ({ tentative with
        registrations := updateRows (fun r => decide (r.id = registration_id)) f
          tentative.registrations },
      some (f row))

/-- Comparator of `ORDER BY created_at DESC` on review events. -/
def reviewEventDescLe (a b : BusinessReviewEvent) : Bool :=
  decide (b.created_at ≤ a.created_at)

/-- `Database::list_review_events` (src/database.rs): all events of the
registration, `ORDER BY created_at DESC`. -/
def list_review_events (s : DbState) (registration_id : Uuid) :
    List BusinessReviewEvent :=
  sortBy reviewEventDescLe
    (s.review_events.filter (fun e => decide (e.registration_id = registration_id)))

/-- Comparator of `ORDER BY is_primary DESC, created_at ASC` on locations. -/
def locationOrderLe (a b : BusinessLocation) : Bool :=
  if a.is_primary = b.is_primary then decide (a.created_at ≤ b.created_at)
  else a.is_primary

/-- `Database::list_locations_for_registration` (src/database.rs). -/
def list_locations_for_registration (s : DbState) (registration_id : Uuid) :
    List BusinessLocation :=
  sortBy locationOrderLe
    (s.locations.filter (fun l => decide (l.registration_id = registration_id)))

/-- Comparator of `ORDER BY starts_at DESC, created_at DESC` on promotions. -/
def promotionOrderLe (a b : BusinessPromotion) : Bool :=
  if a.starts_at = b.starts_at then decide (b.created_at ≤ a.created_at)
  else decide (b.starts_at ≤ a.starts_at)

/-- The `INNER JOIN` of `fetch_locations_for_promotions` restricted to one
promotion id, `ORDER BY is_primary DESC, created_at ASC`. -/
def fetch_locations_for_promotion (s : DbState) (promotion_id : Uuid) :
    List BusinessLocation :=
  sortBy locationOrderLe
    ((s.promotion_locations.filter (fun j => decide (j.promotion_id = promotion_id))).filterMap
      (fun j => s.locations.find? (fun l => decide (l.id = j.location_id))))

/-- `Database::list_promotions_for_registration` (src/database.rs). -/
def list_promotions_for_registration (s : DbState) (registration_id : Uuid) :
    List BusinessPromotionWithLocations :=
  (sortBy promotionOrderLe
      (s.promotions.filter (fun p => decide (p.registration_id = registration_id)))).map
    (fun p => { promotion := p, locations := fetch_locations_for_promotion s p.id })

/-- `build_registration_details` (src/handlers.rs). -/
def build_registration_details (s : DbState) (registration : BusinessRegistration) :
    BusinessRegistrationWithHistory :=
  { registration := registration
    locations := list_locations_for_registration s registration.id
    promotions := list_promotions_for_registration s registration.id
    history := list_review_events s registration.id }

/-- The `new_status` match of `submit_review_action`
(src/handlers.rs:1179-1186). -/
def review_action_new_status (action : ReviewAction)
    (existing : BusinessVerificationStatus) : BusinessVerificationStatus :=
  match action with
  | .Approve => .Approved
  | .Reject => .Rejected
  | .RequestMoreInfo => .UnderReview
  | .Suspend => .Suspended
  | .Resume => .UnderReview
  | .Comment => existing

/-- `submit_review_action` handler (src/handlers.rs): fetch the
registration, validate the payload, compute the new status, record the
review event, and return the rebuilt details. -/
def submit_review_action (s : DbState) (now : Timestamp) (event_id : Uuid)
    (registration_id : Uuid) (payload : ReviewActionRequest) :
    DbState × HandlerResult BusinessRegistrationWithHistory :=
  match get_registration_by_id s registration_id with
  | none => (s, .notFound "Registration not found")
  | some existing =>
    if payload.action = ReviewAction.Reject ∧ payload.rejection_reason = none then
      (s, .badRequest "Rejection reason is required when rejecting a registration")
    else if payload.reviewer_id = none ∨
        ((payload.reviewer_name.map (fun n => (trimString n).isEmpty)).getD true) = true then
      (s, .badRequest "Reviewer identity is required")
    else
      let new_status := review_action_new_status payload.action existing.status
      match record_review_event s now event_id registration_id payload.reviewer_id
          payload.reviewer_name payload.action payload.notes payload.rejection_reason
          new_status with
      | (_, none) => (s, .internalError "Failed to record review event")
      | (s2, some updated) => (s2, .ok (build_registration_details s2 updated))

/-! ### Pagination (`list_pending_reviews` handler) -/

/-- Rust `i64::clamp(min, max)`. -/
def rustClamp (x lo hi : Int) : Int :=
  if x < lo then lo else if x > hi then hi else x

/-- The `limit` normalization of `list_pending_reviews`
(src/handlers.rs:1086): `query.limit.unwrap_or(50).clamp(1, 100)`. -/
def pending_reviews_limit (queryLimit : Option Int) : Int :=
  rustClamp (queryLimit.getD 50) 1 100

/-- The `offset` normalization of `list_pending_reviews`
(src/handlers.rs:1087): `query.offset.unwrap_or(0).max(0)`. -/
def pending_reviews_offset (queryOffset : Option Int) : Int :=
  max (queryOffset.getD 0) 0

/-- Comparator of `ORDER BY submitted_at ASC` on registrations. -/
def pendingOrderLe (a b : BusinessRegistration) : Bool :=
  decide (a.submitted_at ≤ b.submitted_at)

/-- `Database::list_pending_reviews` (src/database.rs): registrations with
status `pending` or `under_review`, oldest submission first, with
`LIMIT`/`OFFSET`. -/
def db_list_pending_reviews (s : DbState) (limit offset : Int) :
    List BusinessRegistration :=
  ((sortBy pendingOrderLe
      (s.registrations.filter (fun r =>
        decide (r.status = BusinessVerificationStatus.Pending) ||
        decide (r.status = BusinessVerificationStatus.UnderReview)))).drop
    offset.toNat).take limit.toNat

/-- `list_pending_reviews` handler (src/handlers.rs): normalizes the
pagination query and runs the database query with the normalized values. -/
def list_pending_reviews (s : DbState) (queryLimit queryOffset : Option Int) :
    List BusinessRegistration :=
  db_list_pending_reviews s (pending_reviews_limit queryLimit)
    (pending_reviews_offset queryOffset)

/-! ### Database operations: locations -/

/-- The stored row of `insert_location_with_tx`'s `INSERT ... RETURNING`
(`created_at`/`updated_at` are database defaults, modelled by `now`). -/
def locationRowOfNew (location : NewBusinessLocation) (now : Timestamp) :
    BusinessLocation :=
  { id := location.id
    registration_id := location.registration_id
    business_id := location.business_id
    label := location.label
    formatted_address := location.formatted_address
    street := location.street
    city := location.city
    state_region := location.state_region
    postal_code := location.postal_code
    country := location.country
    latitude := location.latitude
    longitude := location.longitude
    google_place_id := location.google_place_id
    timezone := location.timezone
    phone := location.phone
    is_primary := location.is_primary
    notes := location.notes
    metadata := location.metadata
    created_at := now
    updated_at := now }

/-- `Database::insert_location_with_tx` (src/database.rs): inside the
caller's transaction, clear `is_primary` on every location of the same
registration when the new row is primary, then insert the new row. -/
def insert_location_with_tx (s : DbState) (now : Timestamp)
    (location : NewBusinessLocation) : DbState × BusinessLocation :=
  let s1 :=
    if location.is_primary then
      let cleared := updateRows
        (fun r => decide (r.registration_id = location.registration_id))
        (fun r => { r with is_primary := false }) s.locations
      { s with locations := cleared }
    else s
  let record := locationRowOfNew location now
  ({ s1 with locations := s1.locations ++ [record] }, record)

/-- `Database::create_location_for_registration` (src/database.rs): a
transaction around `insert_location_with_tx`. -/
def create_location_for_registration (s : DbState) (now : Timestamp)
    (location : NewBusinessLocation) : DbState × BusinessLocation :=
  insert_location_with_tx s now location

/-- The row produced by the `UPDATE business_locations ... RETURNING` of
`update_location`: every column except `id`, `registration_id` and
`created_at` is overwritten from the supplied struct, `updated_at = NOW()`. -/
def applyLocationUpdate (location : BusinessLocation) (now : Timestamp)
    (r : BusinessLocation) : BusinessLocation :=
  { r with
    business_id := location.business_id
    label := location.label
    formatted_address := location.formatted_address
    street := location.street
    city := location.city
    state_region := location.state_region
    postal_code := location.postal_code
    country := location.country
    latitude := location.latitude
    longitude := location.longitude
    google_place_id := location.google_place_id
    timezone := location.timezone
    phone := location.phone
    is_primary := location.is_primary
    notes := location.notes
    metadata := location.metadata
    updated_at := now }

/-- `Database::update_location` (src/database.rs): one transaction; when
the row is stored as primary, first clear `is_primary` on all sibling
rows (`registration_id = $1 AND id <> $2`), then update the target row.
`fetch_one` on zero rows rolls the whole transaction back: `(s, none)`. -/
def update_location (s : DbState) (now : Timestamp)
    (location : BusinessLocation) : DbState × Option BusinessLocation :=
  let cleared :=
    if location.is_primary then
      let siblingsCleared := updateRows
        (fun r => decide (r.registration_id = location.registration_id) &&
          !decide (r.id = location.id))
        (fun r => { r with is_primary := false }) s.locations
      { s with locations := siblingsCleared }
    else s
  match cleared.locations.find?
      (fun r => decide (r.registration_id = location.registration_id) &&
        decide (r.id = location.id)) with
  | none => (s, none)
  | some row =>
    let updatedRows := updateRows
      (fun r => decide (r.registration_id = location.registration_id) &&
        decide (r.id = location.id))
      (applyLocationUpdate location now) cleared.locations
    ({ cleared with locations := updatedRows },
      some (applyLocationUpdate location now row))

/-- `Database::delete_location` (src/database.rs): a single `DELETE`
statement; `rows_affected() == 0` surfaces as `RowNotFound` (`false`). -/
def delete_location (s : DbState) (registration_id location_id : Uuid) :
    DbState × Bool :=
  let remaining := s.locations.filter
    (fun l => !(decide (l.registration_id = registration_id) &&
      decide (l.id = location_id)))
  if remaining.length = s.locations.length then (s, false)
  else ({ s with locations := remaining }, true)

/-- `delete_location_for_registration` handler (src/handlers.rs): refuse
to delete the registration's sole location; after deleting a primary
location, promote the first remaining location when none is primary. -/
def delete_location_for_registration (s : DbState) (now : Timestamp)
    (registration_id location_id : Uuid) :
    DbState × HandlerResult BusinessRegistrationWithHistory :=
  match get_registration_by_id s registration_id with
  | none => (s, .notFound "Registration not found")
  | some _ =>
    let locations := list_locations_for_registration s registration_id
    match locations.find? (fun l => decide (l.id = location_id)) with
    | none => (s, .notFound "Location not found")
    | some target =>
      if locations.length = 1 then
        (s, .badRequest "At least one location is required")
      else
        let deleting_primary := target.is_primary
        match delete_location s registration_id location_id with
        | (_, false) => (s, .notFound "Location not found")
        | (s2, true) =>
          let afterPromote : DbState × Option String :=
            if deleting_primary then
              let remaining := list_locations_for_registration s2 registration_id
              if remaining.any (fun l => l.is_primary) then (s2, none)
              else
                match remaining.head? with
                | none => (s2, none)
                | some promote =>
                  match update_location s2 now { promote with is_primary := true } with
                  | (s3, some _) => (s3, none)
                  | (_, none) =>
                    (s2, some "Failed to promote new primary location")
            else (s2, none)
          match afterPromote with
          | (sErr, some msg) => (sErr, .internalError msg)
          | (s3, none) =>
            match get_registration_by_id s3 registration_id with
            | some updated => (s3, .ok (build_registration_details s3 updated))
            | none => (s3, .notFound "Registration not found")

/-! ### Database operations: registrations (creation paths) -/

/-- `CreateBusinessRegistrationRequest` DTO from `src/models.rs` (payload
fields only; the `validator` length/email constraints act before
`into_new_registration` and do not affect the stored status). -/
structure CreateBusinessRegistrationRequest where
  user_id : Uuid
  name : String
  category : String
  address : String
  description : Option String
  phone : Option String
  website : Option String
  tax_id : Option String
  document_urls : List String
  is_multi_user_team : Bool
  owner_email : String
  owner_username : String
  deriving DecidableEq, Repr

/-- `CreateBusinessRegistrationRequest::into_new_registration`
(src/models.rs:418-445). `fresh_id` stands for `Uuid::new_v4()` and `now`
for `Utc::now()`. -/
def into_new_registration (body : CreateBusinessRegistrationRequest)
    (fresh_id : Uuid) (now : Timestamp) : NewBusinessRegistration :=
  { id := fresh_id
    user_id := body.user_id
    business_id := none
    name := body.name
    category := body.category
    address := body.address
    description := body.description
    phone := body.phone
    website := body.website
    tax_id := body.tax_id
    document_urls := body.document_urls
    is_multi_user_team := body.is_multi_user_team
    status := .Pending
    owner_email := body.owner_email
    owner_username := body.owner_username
    rejection_reason := none
    reviewer_notes := none
    reviewer_id := none
    reviewer_name := none
    submitted_at := now
    updated_at := now }

/-- The stored row of `create_registration`'s `INSERT ... RETURNING`
(every column bound from the helper struct). -/
def registrationRowOfNew (registration : NewBusinessRegistration) :
    BusinessRegistration :=
  { id := registration.id
    user_id := registration.user_id
    business_id := registration.business_id
    name := registration.name
    category := registration.category
    address := registration.address
    description := registration.description
    phone := registration.phone
    website := registration.website
    tax_id := registration.tax_id
    document_urls := registration.document_urls
    is_multi_user_team := registration.is_multi_user_team
    status := registration.status
    owner_email := registration.owner_email
    owner_username := registration.owner_username
    rejection_reason := registration.rejection_reason
    reviewer_notes := registration.reviewer_notes
    reviewer_id := registration.reviewer_id
    reviewer_name := registration.reviewer_name
    submitted_at := registration.submitted_at
    updated_at := registration.updated_at }

/-- Loop of `create_registration` inserting each location inside the same
transaction. -/
def insertLocationList (s : DbState) (now : Timestamp) :
    List NewBusinessLocation → DbState × List BusinessLocation
  | [] => (s, [])
  | location :: rest =>
    let (s1, inserted) := insert_location_with_tx s now location
    let (s2, stored) := insertLocationList s1 now rest
    (s2, inserted :: stored)

/-- `Database::create_registration` (src/database.rs): one transaction
inserting the registration row and each of its locations. -/
def create_registration (s : DbState) (now : Timestamp)
    (registration : NewBusinessRegistration)
    (locations : List NewBusinessLocation) :
    DbState × (BusinessRegistration × List BusinessLocation) :=
  let record := registrationRowOfNew registration
  let s1 := { s with registrations := s.registrations ++ [record] }
  let (s2, stored) := insertLocationList s1 now locations
  (s2, (record, stored))

/-- Comparator of `ORDER BY updated_at DESC` on registrations. -/
def updatedDescLe (a b : BusinessRegistration) : Bool :=
  decide (b.updated_at ≤ a.updated_at)

/-- `Database::get_or_create_auto_registration` (src/database.rs):
return the user's most recently updated approved registration, or insert
a new auto-approved one (`status = 'approved'`). Columns the `INSERT`
omits (`document_urls`, `is_multi_user_team`, ...) take their schema
defaults, modelled as empty/false/none. -/
def get_or_create_auto_registration (s : DbState) (now : Timestamp)
    (fresh_id : Uuid) (user_id : Uuid) (unit_name category : String) :
    DbState × Uuid :=
  let existing := (sortBy updatedDescLe
    (s.registrations.filter (fun r => decide (r.user_id = user_id) &&
      decide (r.status = BusinessVerificationStatus.Approved)))).head?
  match existing with
  | some r => (s, r.id)
  | none =>
    let row : BusinessRegistration :=
      { id := fresh_id
        user_id := user_id
        business_id := none
        name := unit_name
        category := category
        address := "Auto-generated for unit management"
        description := none
        phone := none
        website := none
        tax_id := none
        document_urls := []
        is_multi_user_team := false
        status := .Approved
        owner_email := "user-" ++ toString user_id ++ "@auto.local"
        owner_username := "user-" ++ toString user_id
        rejection_reason := none
        reviewer_notes := none
        reviewer_id := none
        reviewer_name := none
        submitted_at := now
        updated_at := now }
    ({ s with registrations := s.registrations ++ [row] }, fresh_id)

/-! ### Database operations: promotions -/

/-- Insert step of `sync_promotion_locations`:
`INSERT ... ON CONFLICT DO NOTHING` on the join table. -/
def insertPromotionLocation (joins : List BusinessPromotionLocation)
    (promotion_id location_id : Uuid) : List BusinessPromotionLocation :=
  if joins.any (fun j => decide (j.promotion_id = promotion_id) &&
      decide (j.location_id = location_id)) then joins
  else joins ++ [{ promotion_id := promotion_id, location_id := location_id }]

/-- The insert loop of `sync_promotion_locations`. -/
def insertPromotionLocationList (promotion_id : Uuid) :
    List BusinessPromotionLocation → List Uuid → List BusinessPromotionLocation
  | joins, [] => joins
  | joins, location_id :: rest =>
    insertPromotionLocationList promotion_id
      (insertPromotionLocation joins promotion_id location_id) rest

/-- `Database::sync_promotion_locations` (src/database.rs): no-op on an
empty id list; otherwise count the supplied ids that are locations of the
registration and fail with `RowNotFound` (`none`) on any mismatch before
inserting any join row. -/
def sync_promotion_locations (locations : List BusinessLocation)
    (joins : List BusinessPromotionLocation)
    (registration_id promotion_id : Uuid) (location_ids : List Uuid) :
    Option (List BusinessPromotionLocation) :=
  if location_ids.isEmpty then some joins
  else
    let rows := locations.filter (fun l =>
      decide (l.registration_id = registration_id) && location_ids.contains l.id)
    if rows.length ≠ location_ids.length then none
    else some (insertPromotionLocationList promotion_id joins location_ids)

/-- The stored row of `create_promotion`'s `INSERT ... RETURNING`. -/
def promotionRowOfNew (promotion : NewBusinessPromotion) : BusinessPromotion :=
  { id := promotion.id
    registration_id := promotion.registration_id
    unit_id := promotion.unit_id
    title := promotion.title
    subtitle := promotion.subtitle
    description := promotion.description
    promotion_type := promotion.promotion_type
    scope := promotion.scope
    status := promotion.status
    image_url := promotion.image_url
    prize := promotion.prize
    reward_points := promotion.reward_points
    discount_percent := promotion.discount_percent
    max_claims := promotion.max_claims
    per_user_limit := promotion.per_user_limit
    total_claims := promotion.total_claims
    requires_check_in := promotion.requires_check_in
    requires_purchase := promotion.requires_purchase
    terms := promotion.terms
    metadata := promotion.metadata
    starts_at := promotion.starts_at
    ends_at := promotion.ends_at
    published_at := promotion.published_at
    created_by := promotion.created_by
    updated_by := promotion.updated_by
    created_at := promotion.created_at
    updated_at := promotion.updated_at }

/-- `Database::create_promotion` (src/database.rs): one transaction that
inserts the promotion row and, for `Location` scope, synchronizes the
deduplicated location ids; any sync failure rolls everything back. -/
def create_promotion (s : DbState) (promotion : NewBusinessPromotion)
    (location_ids : List Uuid) :
    DbState × Option BusinessPromotionWithLocations :=
  let inserted := promotionRowOfNew promotion
  let t1 := { s with promotions := s.promotions ++ [inserted] }
  let afterSync : Option DbState :=
    if inserted.scope = BusinessPromotionScope.Location then
      (sync_promotion_locations t1.locations t1.promotion_locations
          inserted.registration_id inserted.id (dedupe_uuids location_ids)).map
        (fun js => { t1 with promotion_locations := js })
    else some t1
  match afterSync with
  | none => (s, none)
  | some s2 =>
    (s2, some { promotion := inserted
                locations := fetch_locations_for_promotion s2 inserted.id })

/-- The row produced by `update_promotion`'s `UPDATE ... RETURNING`:
every column except `id`, `registration_id`, `unit_id`, `total_claims`,
`created_by` and `created_at` is overwritten from the supplied struct. -/
def applyPromotionUpdate (promotion : BusinessPromotion)
    (r : BusinessPromotion) : BusinessPromotion :=
  { r with
    title := promotion.title
    subtitle := promotion.subtitle
    description := promotion.description
    promotion_type := promotion.promotion_type
    scope := promotion.scope
    status := promotion.status
    image_url := promotion.image_url
    prize := promotion.prize
    reward_points := promotion.reward_points
    discount_percent := promotion.discount_percent
    max_claims := promotion.max_claims
    per_user_limit := promotion.per_user_limit
    requires_check_in := promotion.requires_check_in
    requires_purchase := promotion.requires_purchase
    terms := promotion.terms
    metadata := promotion.metadata
    starts_at := promotion.starts_at
    ends_at := promotion.ends_at
    published_at := promotion.published_at
    updated_by := promotion.updated_by
    updated_at := promotion.updated_at }

/-- `Database::update_promotion` (src/database.rs): one transaction that
updates the promotion row (`RowNotFound` on a missing row), deletes all
previous join rows, and re-synchronizes the deduplicated location ids for
`Location` scope; any failure rolls everything back. -/
def update_promotion (s : DbState) (promotion : BusinessPromotion)
    (location_ids : List Uuid) :
    DbState × Option BusinessPromotionWithLocations :=
  match s.promotions.find? (fun p => decide (p.id = promotion.id) &&
      decide (p.registration_id = promotion.registration_id)) with
  | none => (s, none)
  | some row =>
    let updated := applyPromotionUpdate promotion row
    let updatedRows := updateRows
      (fun p => decide (p.id = promotion.id) &&
        decide (p.registration_id = promotion.registration_id))
      (applyPromotionUpdate promotion) s.promotions
    let t1 := { s with promotions := updatedRows }
    let joinsCleared := t1.promotion_locations.filter
      (fun j => !decide (j.promotion_id = updated.id))
    let t2 := { t1 with promotion_locations := joinsCleared }
    let afterSync : Option DbState :=
      if updated.scope = BusinessPromotionScope.Location then
        (sync_promotion_locations t2.locations t2.promotion_locations
            updated.registration_id updated.id (dedupe_uuids location_ids)).map
          (fun js => { t2 with promotion_locations := js })
      else some t2
    match afterSync with
    | none => (s, none)
    | some s2 =>
      (s2, some { promotion := updated
                  locations := fetch_locations_for_promotion s2 updated.id })

/-- `Database::get_promotion_with_locations` (src/database.rs). -/
def get_promotion_with_locations (s : DbState)
    (registration_id promotion_id : Uuid) :
    Option BusinessPromotionWithLocations :=
  (s.promotions.find? (fun p => decide (p.id = promotion_id) &&
      decide (p.registration_id = registration_id))).map
    (fun p => { promotion := p
                locations := fetch_locations_for_promotion s p.id })

/-! ### Promotion handlers (spec-modelled DTOs)

The registration-centric promotion request DTOs
(`CreateBusinessPromotionRequest`, `UpdateBusinessPromotionRequest`) are
imported by `src/handlers.rs` but their declarations are not among the
sources (only the legacy business-centric `CreatePromotionRequest`
variant is). Their validation and mapping logic is modelled from the
spec, section 4.3. -/

/-- Modelled from the spec: the missing `CreateBusinessPromotionRequest`
DTO — a promotion payload carrying a `scope` and the `location_ids` to
associate for `Location` scope. -/
structure CreateBusinessPromotionRequest where
  title : String
  subtitle : Option String
  description : Option String
  promotion_type : BusinessPromotionType
  scope : BusinessPromotionScope
  location_ids : List Uuid
  image_url : Option String
  prize : Option String
  reward_points : Int
  discount_percent : Option Int
  max_claims : Option Int
  per_user_limit : Option Int
  requires_check_in : Bool
  requires_purchase : Bool
  terms : Option String
  metadata : Option String
  starts_at : Timestamp
  ends_at : Timestamp
  deriving DecidableEq, Repr

/-- Modelled from the spec: the missing
`CreateBusinessPromotionRequest::validate_business_rules` — checks, in
the spec's order: `ends_at > starts_at`; `scope = Location` requires a
non-empty `location_ids`; `discount_percent` only for `Discount` type and
within `[0, 100]`; `Contest` requires a `prize`. Error messages follow
the surviving legacy validator where the spec gives none. -/
def create_promotion_validate_business_rules
    (body : CreateBusinessPromotionRequest) : Except String Unit :=
  if body.ends_at ≤ body.starts_at then
    .error "La fecha de finalización debe ser posterior a la fecha de inicio"
  else if body.scope = BusinessPromotionScope.Location ∧ body.location_ids = [] then
    .error "Las promociones por ubicación requieren al menos una ubicación"
  else
    match body.discount_percent with
    | some discount =>
      if body.promotion_type ≠ BusinessPromotionType.Discount then
        .error "El porcentaje de descuento solo aplica para promociones de tipo discount"
      else if ¬(0 ≤ discount ∧ discount ≤ 100) then
        .error "El descuento debe estar entre 0 y 100"
      else if body.promotion_type = BusinessPromotionType.Contest ∧ body.prize = none then
        .error "Las promociones de tipo concurso requieren especificar un premio"
      else .ok ()
    | none =>
      if body.promotion_type = BusinessPromotionType.Contest ∧ body.prize = none then
        .error "Las promociones de tipo concurso requieren especificar un premio"
      else .ok ()

/-- Modelled from the spec: the missing
`CreateBusinessPromotionRequest::into_new_promotion` — derived status is
`Scheduled` when the start is in the future, `Active` otherwise; returns
the new promotion row plus the requested location ids. -/
def into_new_promotion (body : CreateBusinessPromotionRequest)
    (registration_id : Uuid) (actor_id : Option Uuid) (fresh_id : Uuid)
    (now : Timestamp) : NewBusinessPromotion × List Uuid :=
  let status := if now < body.starts_at then BusinessPromotionStatus.Scheduled
    else BusinessPromotionStatus.Active
  ({ id := fresh_id
     registration_id := registration_id
     unit_id := none
     title := body.title
     subtitle := body.subtitle
     description := body.description
     promotion_type := body.promotion_type
     scope := body.scope
     status := status
     image_url := body.image_url
     prize := body.prize
     reward_points := body.reward_points
     discount_percent := body.discount_percent
     max_claims := body.max_claims
     per_user_limit := body.per_user_limit
     total_claims := 0
     requires_check_in := body.requires_check_in
     requires_purchase := body.requires_purchase
     terms := body.terms
     metadata := body.metadata.getD ""
     starts_at := body.starts_at
     ends_at := body.ends_at
     published_at := none
     created_by := actor_id
     updated_by := actor_id
     created_at := now
     updated_at := now }, body.location_ids)

/-- `create_promotion_for_registration` handler (src/handlers.rs):
registration lookup, business-rule validation, then the transactional
insert; a `RowNotFound` from the location-membership check surfaces as a
400 with the mismatch message. Field-level `validator` constraints of the
spec-modelled DTO are not specified and are modelled as passing. -/
def create_promotion_for_registration (s : DbState) (now : Timestamp)
    (fresh_id : Uuid) (actor_id : Uuid) (registration_id : Uuid)
    (body : CreateBusinessPromotionRequest) :
    DbState × HandlerResult BusinessPromotionWithLocations :=
  match get_registration_by_id s registration_id with
  | none => (s, .notFound "Registro de negocio no encontrado")
  | some _ =>
    match create_promotion_validate_business_rules body with
    | .error message => (s, .badRequest message)
    | .ok _ =>
      let (new_promotion, location_ids) :=
        into_new_promotion body registration_id (some actor_id) fresh_id now
      match create_promotion s new_promotion location_ids with
      | (_, none) =>
        (s, .badRequest "Una o más ubicaciones no pertenecen a esta solicitud")
      | (s2, some pwl) => (s2, .created pwl)

/-- Modelled from the spec: the missing `UpdateBusinessPromotionRequest`
DTO — like the create payload plus the explicit lifecycle `status` and
`published_at` carried by the legacy update variant. -/
structure UpdateBusinessPromotionRequest where
  title : String
  subtitle : Option String
  description : Option String
  promotion_type : BusinessPromotionType
  scope : BusinessPromotionScope
  location_ids : List Uuid
  status : BusinessPromotionStatus
  image_url : Option String
  prize : Option String
  reward_points : Int
  discount_percent : Option Int
  max_claims : Option Int
  per_user_limit : Option Int
  requires_check_in : Bool
  requires_purchase : Bool
  terms : Option String
  starts_at : Timestamp
  ends_at : Timestamp
  published_at : Option Timestamp
  metadata : Option String
  deriving DecidableEq, Repr

/-- Modelled from the spec: the missing
`UpdateBusinessPromotionRequest::validate_business_rules` — same rules as
the create validator (the promotion `status` is NOT re-derived on
update). -/
def update_promotion_validate_business_rules
    (body : UpdateBusinessPromotionRequest) : Except String Unit :=
  if body.ends_at ≤ body.starts_at then
    .error "La fecha de finalización debe ser posterior a la fecha de inicio"
  else if body.scope = BusinessPromotionScope.Location ∧ body.location_ids = [] then
    .error "Las promociones por ubicación requieren al menos una ubicación"
  else
    match body.discount_percent with
    | some discount =>
      if body.promotion_type ≠ BusinessPromotionType.Discount then
        .error "El porcentaje de descuento solo aplica para promociones de tipo discount"
      else if ¬(0 ≤ discount ∧ discount ≤ 100) then
        .error "El descuento debe estar entre 0 y 100"
      else if body.promotion_type = BusinessPromotionType.Contest ∧ body.prize = none then
        .error "Las promociones de tipo concurso requieren especificar un premio"
      else .ok ()
    | none =>
      if body.promotion_type = BusinessPromotionType.Contest ∧ body.prize = none then
        .error "Las promociones de tipo concurso requieren especificar un premio"
      else .ok ()

/-- Modelled from the spec: the missing
`UpdateBusinessPromotionRequest::apply_to_existing` — overwrite the
mutable fields of the loaded promotion and return the requested location
ids (all previous associations are replaced by the update transaction). -/
def promotion_apply_to_existing (body : UpdateBusinessPromotionRequest)
    (existing : BusinessPromotion) (actor_id : Option Uuid) (now : Timestamp) :
    BusinessPromotion × List Uuid :=
  ({ existing with
      title := body.title
      subtitle := body.subtitle
      description := body.description
      promotion_type := body.promotion_type
      scope := body.scope
      status := body.status
      image_url := body.image_url
      prize := body.prize
      reward_points := body.reward_points
      discount_percent := body.discount_percent
      max_claims := body.max_claims
      per_user_limit := body.per_user_limit
      requires_check_in := body.requires_check_in
      requires_purchase := body.requires_purchase
      terms := body.terms
      starts_at := body.starts_at
      ends_at := body.ends_at
      published_at := body.published_at
      metadata := body.metadata.getD existing.metadata
      updated_by := actor_id
      updated_at := now }, body.location_ids)

/-- `update_promotion_for_registration` handler (src/handlers.rs):
registration lookup, business-rule validation, promotion lookup, then the
transactional update; `RowNotFound` surfaces as a 404. -/
def update_promotion_for_registration (s : DbState) (now : Timestamp)
    (actor_id : Uuid) (registration_id promotion_id : Uuid)
    (body : UpdateBusinessPromotionRequest) :
    DbState × HandlerResult BusinessPromotionWithLocations :=
  match get_registration_by_id s registration_id with
  | none => (s, .notFound "Registro de negocio no encontrado")
  | some _ =>
    match update_promotion_validate_business_rules body with
    | .error message => (s, .badRequest message)
    | .ok _ =>
      match get_promotion_with_locations s registration_id promotion_id with
      | none => (s, .notFound "Promoción no encontrada")
      | some existing =>
        let (promotion, location_ids) :=
          promotion_apply_to_existing body existing.promotion (some actor_id) now
        match update_promotion s promotion location_ids with
        | (_, none) => (s, .notFound "Promoción no encontrada")
        | (s2, some updated) => (s2, .ok updated)

/-! ### Observables used by the invariant statements -/

/-- Number of locations of a registration flagged `is_primary`. -/
def primary_count (s : DbState) (registration_id : Uuid) : Nat :=
  s.locations.countP (fun l => decide (l.registration_id = registration_id) && l.is_primary)

/-- Number of locations belonging to a registration. -/
def location_count (s : DbState) (registration_id : Uuid) : Nat :=
  s.locations.countP (fun l => decide (l.registration_id = registration_id))

/-- Number of join rows associated to a promotion. -/
def promotion_location_count (s : DbState) (promotion_id : Uuid) : Nat :=
  s.promotion_locations.countP (fun j => decide (j.promotion_id = promotion_id))

/-! ### Concrete fixtures used by witnesses and counterexamples -/

/-- A concrete registration row. -/
def sampleRegistration : BusinessRegistration :=
  { id := 1
    user_id := 7
    business_id := none
    name := "Cafe Central"
    category := "Food"
    address := "Main Street 1"
    description := none
    phone := none
    website := none
    tax_id := none
    document_urls := ["doc.pdf"]
    is_multi_user_team := false
    status := .Pending
    owner_email := "owner@example.com"
    owner_username := "owner"
    rejection_reason := none
    reviewer_notes := none
    reviewer_id := none
    reviewer_name := none
    submitted_at := 0
    updated_at := 0 }

/-- A concrete location row. -/
def sampleLocation (id registration_id : Uuid) (is_primary : Bool)
    (created_at : Timestamp) : BusinessLocation :=
  { id := id
    registration_id := registration_id
    business_id := none
    label := none
    formatted_address := "Main Street 1"
    street := none
    city := none
    state_region := none
    postal_code := none
    country := none
    latitude := none
    longitude := none
    google_place_id := none
    timezone := none
    phone := none
    is_primary := is_primary
    notes := none
    metadata := ""
    created_at := created_at
    updated_at := created_at }

/-- A concrete review event row. -/
def sampleEvent (id registration_id : Uuid) (created_at : Timestamp) :
    BusinessReviewEvent :=
  { id := id
    registration_id := registration_id
    reviewer_id := some 3
    reviewer_name := some "Admin"
    action := .Comment
    notes := none
    rejection_reason := none
    created_at := created_at }

/-- A state holding one pending registration and one primary location. -/
def sampleState : DbState :=
  { registrations := [sampleRegistration]
    review_events := []
    locations := [sampleLocation 10 1 true 0]
    promotions := []
    promotion_locations := [] }

/-- A state holding one registration and two locations. -/
def sampleStateTwoLocations : DbState :=
  { registrations := [sampleRegistration]
    review_events := []
    locations := [sampleLocation 10 1 true 0, sampleLocation 11 1 false 1]
    promotions := []
    promotion_locations := [] }

/-- A state whose registration has two review events, created at 0 and 1. -/
def sampleStateTwoEvents : DbState :=
  { registrations := [sampleRegistration]
    review_events := [sampleEvent 100 1 0, sampleEvent 101 1 1]
    promotions := []
    locations := []
    promotion_locations := [] }

/-- The empty database. -/
def emptyState : DbState :=
  { registrations := [], review_events := [], locations := [], promotions := [],
    promotion_locations := [] }

/-- A concrete promotion creation payload. -/
def samplePromotionRequest (scope : BusinessPromotionScope)
    (location_ids : List Uuid) : CreateBusinessPromotionRequest :=
  { title := "Promo"
    subtitle := none
    description := none
    promotion_type := .Event
    scope := scope
    location_ids := location_ids
    image_url := none
    prize := none
    reward_points := 0
    discount_percent := none
    max_claims := none
    per_user_limit := none
    requires_check_in := false
    requires_purchase := false
    terms := none
    metadata := none
    starts_at := 10
    ends_at := 20 }

/-- A concrete promotion update payload. -/
def samplePromotionUpdateRequest (scope : BusinessPromotionScope)
    (location_ids : List Uuid) : UpdateBusinessPromotionRequest :=
  { title := "Promo"
    subtitle := none
    description := none
    promotion_type := .Event
    scope := scope
    location_ids := location_ids
    status := .Active
    image_url := none
    prize := none
    reward_points := 0
    discount_percent := none
    max_claims := none
    per_user_limit := none
    requires_check_in := false
    requires_purchase := false
    terms := none
    starts_at := 10
    ends_at := 20
    published_at := none
    metadata := none }

/-- The review payload used by the C1 witness. -/
def approvePayload : ReviewActionRequest :=
  { action := .Approve, notes := none, rejection_reason := none,
    reviewer_id := some 3, reviewer_name := some "Admin" }

/-- The registration row stored by the C1 witness run. -/
def c1Updated : BusinessRegistration :=
  applyReviewUpdate (some 3) (some "Admin") none none
    BusinessVerificationStatus.Approved 5 sampleRegistration

/-- The database state after the C1 witness run. -/
def c1State : DbState :=
  { sampleState with
    registrations := [c1Updated]
    review_events :=
      [{ id := 9, registration_id := 1, reviewer_id := some 3,
         reviewer_name := some "Admin", action := ReviewAction.Approve,
         notes := none, rejection_reason := none, created_at := 5 }] }

/-- A promotion row belonging to registration 1, used by witnesses. -/
def samplePromotionRow : BusinessPromotion :=
  { id := 30
    registration_id := 1
    unit_id := none
    title := "Promo"
    subtitle := none
    description := none
    promotion_type := .Event
    scope := .Location
    status := .Active
    image_url := none
    prize := none
    reward_points := 0
    discount_percent := none
    max_claims := none
    per_user_limit := none
    total_claims := 0
    requires_check_in := false
    requires_purchase := false
    terms := none
    metadata := ""
    starts_at := 10
    ends_at := 20
    published_at := none
    created_by := none
    updated_by := none
    created_at := 0
    updated_at := 0 }

/-- A Location-scoped promotion insert payload for registration 1. -/
def sampleNewPromotion : NewBusinessPromotion :=
  { id := 31
    registration_id := 1
    unit_id := none
    title := "Promo"
    subtitle := none
    description := none
    promotion_type := .Event
    scope := .Location
    status := .Active
    image_url := none
    prize := none
    reward_points := 0
    discount_percent := none
    max_claims := none
    per_user_limit := none
    total_claims := 0
    requires_check_in := false
    requires_purchase := false
    terms := none
    metadata := ""
    starts_at := 10
    ends_at := 20
    published_at := none
    created_by := none
    updated_by := none
    created_at := 0
    updated_at := 0 }

/-- A concrete registration submission payload. -/
def sampleRegistrationRequest : CreateBusinessRegistrationRequest :=
  { user_id := 7
    name := "Cafe Central"
    category := "Food"
    address := "Main Street 1"
    description := none
    phone := none
    website := none
    tax_id := none
    document_urls := ["doc.pdf"]
    is_multi_user_team := false
    owner_email := "owner@example.com"
    owner_username := "owner" }

/-! ## Helper lemmas -/

theorem insertBy_perm (le : α → α → Bool) (a : α) (l : List α) :
    List.Perm (insertBy le a l) (a :: l) := by
  induction l with
  | nil => simp [insertBy]
  | cons b bs ih =>
    simp only [insertBy]
    split
    · exact List.Perm.refl _
    · exact (ih.cons b).trans (List.Perm.swap a b bs)

theorem sortBy_perm (le : α → α → Bool) (l : List α) :
    List.Perm (sortBy le l) l := by
  induction l with
  | nil => simp [sortBy]
  | cons a as ih => exact (insertBy_perm le a (sortBy le as)).trans (ih.cons a)

theorem insertBy_pairwise (le : α → α → Bool)
    (htrans : ∀ a b c, le a b = true → le b c = true → le a c = true)
    (htot : ∀ a b, le a b = true ∨ le b a = true)
    (a : α) (l : List α) (h : List.Pairwise (fun x y => le x y = true) l) :
    List.Pairwise (fun x y => le x y = true) (insertBy le a l) := by
  induction l with
  | nil => simp [insertBy]
  | cons b bs ih =>
    rcases h with _ | ⟨hb, hbs⟩
    simp only [insertBy]
    split
    · rename_i hab
      refine List.Pairwise.cons ?_ (List.Pairwise.cons hb hbs)
      intro x hx
      rcases List.mem_cons.mp hx with rfl | hx
      · exact hab
      · exact htrans a b x hab (hb x hx)
    · rename_i hab
      have hba : le b a = true := by
        rcases htot a b with h1 | h1
        · exact absurd h1 hab
        · exact h1
      refine List.Pairwise.cons ?_ (ih hbs)
      intro x hx
      have hx2 : x ∈ a :: bs := (insertBy_perm le a bs).mem_iff.mp hx
      rcases List.mem_cons.mp hx2 with rfl | hx2
      · exact hba
      · exact hb x hx2

theorem sortBy_pairwise (le : α → α → Bool)
    (htrans : ∀ a b c, le a b = true → le b c = true → le a c = true)
    (htot : ∀ a b, le a b = true ∨ le b a = true) (l : List α) :
    List.Pairwise (fun x y => le x y = true) (sortBy le l) := by
  induction l with
  | nil => simp [sortBy]
  | cons a as ih => exact insertBy_pairwise le htrans htot a (sortBy le as) ih

theorem updateRows_find? (p : α → Bool) (f : α → α) (l : List α)
    (hpres : ∀ r, p (f r) = p r) :
    (updateRows p f l).find? p = (l.find? p).map f := by
  induction l with
  | nil => rfl
  | cons a as ih =>
    by_cases hp : p a = true
    · rw [updateRows, List.map_cons, if_pos hp,
        List.find?_cons_of_pos _ (by rw [hpres]; exact hp),
        List.find?_cons_of_pos _ hp]
      rfl
    · rw [updateRows, List.map_cons, if_neg hp,
        List.find?_cons_of_neg _ hp, List.find?_cons_of_neg _ hp]
      exact ih

theorem countP_updateRows_of_pres (p q : α → Bool) (f : α → α) (l : List α)
    (h : ∀ r, p (f r) = p r) :
    (updateRows q f l).countP p = l.countP p := by
  rw [updateRows, List.countP_map]
  refine List.countP_congr (fun x _ => ?_)
  by_cases hq : q x = true <;> simp [Function.comp, hq, h x]

theorem countP_key_le_one [DecidableEq β] (g : α → β) (v : β) (l : List α)
    (h : (l.map g).Nodup) :
    l.countP (fun r => decide (g r = v)) ≤ 1 := by
  induction l with
  | nil => simp
  | cons a as ih =>
    rw [List.map_cons, List.nodup_cons] at h
    rw [List.countP_cons]
    by_cases hv : g a = v
    · have hz : as.countP (fun r => decide (g r = v)) = 0 := by
        refine List.countP_eq_zero.mpr (fun x hx hcontra => ?_)
        have : g x = v := of_decide_eq_true hcontra
        exact h.1 (List.mem_map.mpr ⟨x, hx, by rw [this, hv]⟩)
      simp [hz, hv]
    · simpa [hv] using ih h.2

theorem dedupe_uuids_go_mem (seen : List Uuid) (ids : List Uuid) (x : Uuid) :
    x ∈ dedupe_uuids_go seen ids ↔ x ∈ ids ∧ x ∉ seen := by
  induction ids generalizing seen with
  | nil => simp [dedupe_uuids_go]
  | cons a rest ih =>
    simp only [dedupe_uuids_go]
    split
    · rename_i ha
      rw [ih seen]
      constructor
      · rintro ⟨hx, hns⟩; exact ⟨List.mem_cons_of_mem a hx, hns⟩
      · rintro ⟨hx, hns⟩
        rcases List.mem_cons.mp hx with rfl | hx
        · exact absurd ha hns
        · exact ⟨hx, hns⟩
    · rename_i ha
      rw [List.mem_cons, ih (a :: seen)]
      constructor
      · rintro (rfl | ⟨hx, hns⟩)
        · exact ⟨List.mem_cons_self _ _, ha⟩
        · exact ⟨List.mem_cons_of_mem _ hx, fun hc => hns (List.mem_cons_of_mem _ hc)⟩
      · rintro ⟨hx, hns⟩
        rcases List.mem_cons.mp hx with rfl | hx
        · exact Or.inl rfl
        · by_cases hxa : x = a
          · exact Or.inl hxa
          · exact Or.inr ⟨hx, fun hc => by
              rcases List.mem_cons.mp hc with h1 | h1
              · exact hxa h1
              · exact hns h1⟩

theorem mem_dedupe_uuids (ids : List Uuid) (x : Uuid) :
    x ∈ dedupe_uuids ids ↔ x ∈ ids := by
  rw [dedupe_uuids, dedupe_uuids_go_mem]
  simp

theorem dedupe_uuids_go_nodup (seen : List Uuid) (ids : List Uuid) :
    (dedupe_uuids_go seen ids).Nodup := by
  induction ids generalizing seen with
  | nil => simp [dedupe_uuids_go]
  | cons a rest ih =>
    simp only [dedupe_uuids_go]
    split
    · exact ih seen
    · refine List.nodup_cons.mpr ⟨?_, ih (a :: seen)⟩
      intro hmem
      exact ((dedupe_uuids_go_mem (a :: seen) rest a).mp hmem).2
        (List.mem_cons_self a seen)

theorem dedupe_uuids_nodup (ids : List Uuid) : (dedupe_uuids ids).Nodup :=
  dedupe_uuids_go_nodup [] ids

theorem insert_location_with_tx_registrations (s : DbState) (now : Timestamp)
    (location : NewBusinessLocation) :
    (insert_location_with_tx s now location).1.registrations = s.registrations := by
  simp only [insert_location_with_tx]
  split <;> rfl

theorem insertLocationList_registrations (s : DbState) (now : Timestamp)
    (locs : List NewBusinessLocation) :
    (insertLocationList s now locs).1.registrations = s.registrations := by
  induction locs generalizing s with
  | nil => rfl
  | cons a rest ih =>
    simp only [insertLocationList]
    rw [ih]
    exact insert_location_with_tx_registrations s now a

theorem countP_and_split (p q : α → Bool) (l : List α) :
    l.countP p = l.countP (fun a => p a && q a) + l.countP (fun a => p a && !q a) := by
  induction l with
  | nil => simp
  | cons a as ih =>
    rw [List.countP_cons, List.countP_cons, List.countP_cons, ih]
    by_cases hp : p a = true <;> by_cases hq : q a = true <;> simp [hp, hq] <;> omega

theorem countP_updateRows_eq_zero (p q : α → Bool) (f : α → α) (l : List α)
    (h1 : ∀ r, q r = true → p (f r) = false)
    (h2 : ∀ r, q r = false → p r = false) :
    (updateRows q f l).countP p = 0 := by
  rw [updateRows, List.countP_map]
  refine List.countP_eq_zero.mpr (fun x _ => ?_)
  by_cases hq : q x = true
  · simp [Function.comp, hq, h1 x hq]
  · simp [Function.comp, hq, h2 x (by simpa using hq)]

theorem countP_updateRows_le (p q : α → Bool) (f : α → α) (l : List α)
    (h : ∀ r, q r = true → p (f r) = true → p r = true) :
    (updateRows q f l).countP p ≤ l.countP p := by
  rw [updateRows, List.countP_map]
  refine List.countP_mono_left (fun x _ hx => ?_)
  by_cases hq : q x = true
  · exact h x hq (by simpa [Function.comp, hq] using hx)
  · simpa [Function.comp, hq] using hx

theorem countP_updateRows_congr (p q : α → Bool) (f : α → α) (l : List α)
    (h : ∀ r, q r = true → p (f r) = p r) :
    (updateRows q f l).countP p = l.countP p := by
  rw [updateRows, List.countP_map]
  refine List.countP_congr (fun x _ => ?_)
  by_cases hq : q x = true <;> simp [Function.comp, hq, h x]

theorem countP_singleton_le_one (p : α → Bool) (x : α) :
    List.countP p [x] ≤ 1 := by
  by_cases h : p x = true <;> simp [List.countP_cons, h]

theorem update_location_fst_locations (s : DbState) (now : Timestamp)
    (location : BusinessLocation) :
    (update_location s now location).1.locations = s.locations ∨
    (update_location s now location).1.locations =
      updateRows
        (fun r => decide (r.registration_id = location.registration_id) &&
          decide (r.id = location.id))
        (applyLocationUpdate location now)
        (if location.is_primary then
          updateRows
            (fun r => decide (r.registration_id = location.registration_id) &&
              !decide (r.id = location.id))
            (fun r => { r with is_primary := false }) s.locations
         else s.locations) := by
  simp only [update_location]
  split
  · exact Or.inl rfl
  · refine Or.inr ?_
    by_cases hp : location.is_primary <;> simp [hp]

theorem update_location_location_count (s : DbState) (now : Timestamp)
    (location : BusinessLocation) (rid : Uuid) :
    location_count (update_location s now location).1 rid =
      location_count s rid := by
  rcases update_location_fst_locations s now location with h | h
  · unfold location_count; rw [h]
  · unfold location_count
    rw [h, countP_updateRows_of_pres
      (fun l : BusinessLocation => decide (l.registration_id = rid)) _
      (applyLocationUpdate location now) _ (fun r => rfl)]
    by_cases hp : location.is_primary
    · rw [if_pos hp, countP_updateRows_of_pres
        (fun l : BusinessLocation => decide (l.registration_id = rid)) _
        (fun r : BusinessLocation => { r with is_primary := false }) _
        (fun r => rfl)]
    · rw [if_neg hp]

theorem delete_location_cases (s : DbState) (registration_id location_id : Uuid)
    (s2 : DbState) :
    delete_location s registration_id location_id = (s2, true) →
    s2.locations = s.locations.filter
      (fun l => !(decide (l.registration_id = registration_id) &&
        decide (l.id = location_id))) ∧
    s2.registrations = s.registrations := by
  intro heq
  simp only [delete_location] at heq
  split at heq
  · cases heq
  · obtain ⟨h1, -⟩ := Prod.mk.injEq .. ▸ heq
    subst h1
    exact ⟨rfl, rfl⟩

theorem delete_keeps_registration_nonempty (s : DbState)
    (registration_id location_id : Uuid)
    (hnodup : (s.locations.map (fun l => l.id)).Nodup)
    (h2 : 2 ≤ location_count s registration_id) :
    1 ≤ (s.locations.filter
      (fun l => !(decide (l.registration_id = registration_id) &&
        decide (l.id = location_id)))).countP
      (fun l => decide (l.registration_id = registration_id)) := by
  rw [List.countP_filter]
  have hsplit := countP_and_split
    (fun l : BusinessLocation => decide (l.registration_id = registration_id))
    (fun l => decide (l.id = location_id)) s.locations
  have hone : s.locations.countP
      (fun l => decide (l.registration_id = registration_id) &&
        decide (l.id = location_id)) ≤ 1 := by
    refine le_trans (List.countP_mono_left (fun x _ hx => ?_))
      (countP_key_le_one (fun l => l.id) location_id s.locations hnodup)
    exact (Bool.and_eq_true ..).mp hx |>.2
  have hcongr : s.locations.countP
        (fun l => decide (l.registration_id = registration_id) &&
          !(decide (l.registration_id = registration_id) &&
            decide (l.id = location_id))) =
      s.locations.countP
        (fun l => decide (l.registration_id = registration_id) &&
          !decide (l.id = location_id)) := by
    refine List.countP_congr (fun x _ => ?_)
    by_cases h1 : x.registration_id = registration_id <;>
      by_cases h2 : x.id = location_id <;> simp [h1, h2]
  rw [hcongr]
  unfold location_count at h2 hsplit
  omega

theorem delete_location_for_registration_nonempty (s : DbState) (now : Timestamp)
    (registration_id location_id : Uuid)
    (hnodup : (s.locations.map (fun l => l.id)).Nodup)
    (hne : 1 ≤ location_count s registration_id) :
    1 ≤ location_count
      (delete_location_for_registration s now registration_id location_id).1
      registration_id := by
  simp only [delete_location_for_registration]
  split
  · exact hne
  · split
    · exact hne
    · rename_i target hfind
      split
      · exact hne
      · rename_i hlen
        split
        · exact hne
        · rename_i s2 hdel
          have hs2 := delete_location_cases s registration_id location_id s2 hdel
          have htargetmem : target ∈ list_locations_for_registration s registration_id :=
            List.mem_of_find?_eq_some hfind
          have hlen1 : 1 ≤ (list_locations_for_registration s registration_id).length :=
            List.length_pos_of_mem htargetmem
          have hlenc : (list_locations_for_registration s registration_id).length =
              location_count s registration_id := by
            unfold list_locations_for_registration location_count
            rw [(sortBy_perm _ _).length_eq, List.countP_eq_length_filter]
          have h2 : 2 ≤ location_count s registration_id := by omega
          have hcount2 : 1 ≤ location_count s2 registration_id := by
            unfold location_count
            rw [hs2.1]
            exact delete_keeps_registration_nonempty s registration_id location_id
              hnodup h2
          split
          · rename_i sErr msg hpromote
            split at hpromote
            · split at hpromote
              · cases hpromote
              · split at hpromote
                · cases hpromote
                · rename_i promote hhead
                  split at hpromote
                  · cases hpromote
                  · obtain ⟨rfl, -⟩ := Prod.mk.injEq .. ▸ hpromote
                    exact hcount2
            · cases hpromote
          · rename_i s3 hpromote
            have hs3 : 1 ≤ location_count s3 registration_id := by
              split at hpromote
              · split at hpromote
                · obtain ⟨rfl, -⟩ := Prod.mk.injEq .. ▸ hpromote
                  exact hcount2
                · split at hpromote
                  · obtain ⟨rfl, -⟩ := Prod.mk.injEq .. ▸ hpromote
                    exact hcount2
                  · rename_i promote hhead
                    split at hpromote
                    · rename_i s4 r hupd
                      obtain ⟨rfl, -⟩ := Prod.mk.injEq .. ▸ hpromote
                      have hcnt := update_location_location_count s2 now
                        { promote with is_primary := true } registration_id
                      rw [hupd] at hcnt
                      rw [hcnt]
                      exact hcount2
                    · cases hpromote
              · obtain ⟨rfl, -⟩ := Prod.mk.injEq .. ▸ hpromote
                exact hcount2
            split
            · exact hs3
            · exact hs3

theorem sync_promotion_locations_fails (locations : List BusinessLocation)
    (joins : List BusinessPromotionLocation) (rid pid : Uuid)
    (ids : List Uuid) (bad : Uuid)
    (hnodupLoc : (locations.map (fun l => l.id)).Nodup)
    (hmem : bad ∈ ids)
    (hbad : ∀ l ∈ locations, ¬(l.registration_id = rid ∧ l.id = bad)) :
    sync_promotion_locations locations joins rid pid ids = none := by
  unfold sync_promotion_locations
  rw [if_neg (by simp [List.isEmpty_iff]; exact List.ne_nil_of_mem hmem)]
  have hsub : ((locations.filter (fun l => decide (l.registration_id = rid) &&
      ids.contains l.id)).map (fun l => l.id)) ⊆
      ids.filter (fun y => !decide (y = bad)) := by
    intro y hy
    rcases List.mem_map.mp hy with ⟨l, hl, rfl⟩
    rcases List.mem_filter.mp hl with ⟨hlmem, hlp⟩
    rcases Bool.and_eq_true .. |>.mp hlp with ⟨hlr, hlc⟩
    refine List.mem_filter.mpr ⟨List.elem_iff.mp hlc, ?_⟩
    have : ¬(l.id = bad) := fun hcon =>
      hbad l hlmem ⟨of_decide_eq_true hlr, hcon⟩
    simp [this]
  have hnodupRows : ((locations.filter (fun l => decide (l.registration_id = rid) &&
      ids.contains l.id)).map (fun l => l.id)).Nodup :=
    (List.Sublist.map _ (List.filter_sublist locations)).nodup hnodupLoc
  have hle := (hnodupRows.subperm hsub).length_le
  rw [List.length_map] at hle
  have hflt : (ids.filter (fun y => !decide (y = bad))).length < ids.length :=
    List.length_filter_lt_length_iff_exists.mpr ⟨bad, hmem, by simp⟩
  rw [if_pos (by omega)]

theorem insertPromotionLocationList_mem_of_mem (pid : Uuid)
    (joins : List BusinessPromotionLocation) (ids : List Uuid)
    (j : BusinessPromotionLocation) (hj : j ∈ joins) :
    j ∈ insertPromotionLocationList pid joins ids := by
  induction ids generalizing joins with
  | nil => exact hj
  | cons x rest ih =>
    simp only [insertPromotionLocationList]
    refine ih _ ?_
    unfold insertPromotionLocation
    split
    · exact hj
    · exact List.mem_append.mpr (Or.inl hj)

theorem insertPromotionLocationList_head_mem (pid : Uuid)
    (joins : List BusinessPromotionLocation) (x : Uuid) (rest : List Uuid) :
    ∃ j ∈ insertPromotionLocationList pid joins (x :: rest),
      j.promotion_id = pid := by
  simp only [insertPromotionLocationList]
  have hx : ∃ j ∈ insertPromotionLocation joins pid x, j.promotion_id = pid := by
    unfold insertPromotionLocation
    split
    · rename_i hany
      rcases List.any_eq_true.mp hany with ⟨j, hj, hjp⟩
      rcases Bool.and_eq_true .. |>.mp hjp with ⟨hj1, -⟩
      exact ⟨j, hj, of_decide_eq_true hj1⟩
    · exact ⟨_, List.mem_append.mpr (Or.inr (List.mem_singleton.mpr rfl)), rfl⟩
  rcases hx with ⟨j, hj, hjp⟩
  exact ⟨j, insertPromotionLocationList_mem_of_mem pid _ rest j hj, hjp⟩

theorem sync_promotion_locations_some_mem (locations : List BusinessLocation)
    (joins : List BusinessPromotionLocation) (rid pid : Uuid)
    (ids : List Uuid) (js : List BusinessPromotionLocation)
    (hids : ids ≠ [])
    (hsync : sync_promotion_locations locations joins rid pid ids = some js) :
    ∃ j ∈ js, j.promotion_id = pid := by
  unfold sync_promotion_locations at hsync
  rw [if_neg (by simpa [List.isEmpty_iff] using hids)] at hsync
  simp only [] at hsync
  split at hsync
  · cases hsync
  · obtain rfl := (Option.some.injEq .. ▸ hsync)
    cases ids with
    | nil => exact absurd rfl hids
    | cons x rest => exact insertPromotionLocationList_head_mem pid joins x rest

theorem dedupe_uuids_ne_nil (ids : List Uuid) (h : ids ≠ []) :
    dedupe_uuids ids ≠ [] := by
  rcases List.exists_mem_of_ne_nil ids h with ⟨x, hx⟩
  exact List.ne_nil_of_mem ((mem_dedupe_uuids ids x).mpr hx)

theorem create_promotion_location_joins (s : DbState)
    (promotion : NewBusinessPromotion) (location_ids : List Uuid)
    (s2 : DbState) (pwl : BusinessPromotionWithLocations)
    (hscope : promotion.scope = BusinessPromotionScope.Location)
    (hids : location_ids ≠ [])
    (hok : create_promotion s promotion location_ids = (s2, some pwl)) :
    pwl.promotion.id = promotion.id ∧
    1 ≤ promotion_location_count s2 promotion.id := by
  simp only [create_promotion] at hok
  rw [if_pos (show (promotionRowOfNew promotion).scope =
    BusinessPromotionScope.Location from hscope)] at hok
  split at hok
  · cases hok
  · rename_i s3 hmap
    rcases Option.map_eq_some'.mp hmap with ⟨js, hsync, rfl⟩
    obtain ⟨rfl, hpwl⟩ := Prod.mk.injEq .. ▸ hok
    obtain rfl := (Option.some.injEq .. ▸ hpwl)
    rcases sync_promotion_locations_some_mem _ _ _ _ _ js
      (dedupe_uuids_ne_nil location_ids hids) hsync with ⟨j, hj, hjp⟩
    refine ⟨rfl, ?_⟩
    show 1 ≤ js.countP (fun jj => decide (jj.promotion_id = promotion.id))
    exact List.countP_pos_iff.mpr ⟨j, hj, decide_eq_true hjp⟩

theorem update_promotion_location_joins (s : DbState)
    (promotion : BusinessPromotion) (location_ids : List Uuid)
    (s2 : DbState) (pwl : BusinessPromotionWithLocations)
    (hscope : promotion.scope = BusinessPromotionScope.Location)
    (hids : location_ids ≠ [])
    (hok : update_promotion s promotion location_ids = (s2, some pwl)) :
    pwl.promotion.id = promotion.id ∧
    1 ≤ promotion_location_count s2 promotion.id := by
  simp only [update_promotion] at hok
  split at hok
  · cases hok
  · rename_i row hfind
    rw [if_pos (show (applyPromotionUpdate promotion row).scope =
      BusinessPromotionScope.Location from hscope)] at hok
    split at hok
    · cases hok
    · rename_i s3 hmap
      rcases Option.map_eq_some'.mp hmap with ⟨js, hsync, rfl⟩
      obtain ⟨rfl, hpwl⟩ := Prod.mk.injEq .. ▸ hok
      obtain rfl := (Option.some.injEq .. ▸ hpwl)
      have hrow := List.find?_some hfind
      rcases Bool.and_eq_true .. |>.mp hrow with ⟨hrow1, -⟩
      have hrowid : row.id = promotion.id := of_decide_eq_true hrow1
      rcases sync_promotion_locations_some_mem _ _ _ _ _ js
        (dedupe_uuids_ne_nil location_ids hids) hsync with ⟨j, hj, hjp⟩
      constructor
      · show (applyPromotionUpdate promotion row).id = promotion.id
        exact hrowid
      · show 1 ≤ js.countP (fun jj => decide (jj.promotion_id = promotion.id))
        refine List.countP_pos_iff.mpr ⟨j, hj, decide_eq_true ?_⟩
        exact hjp.trans hrowid

theorem create_promotion_ok_scope (s : DbState)
    (promotion : NewBusinessPromotion) (location_ids : List Uuid)
    (s2 : DbState) (pwl : BusinessPromotionWithLocations)
    (hok : create_promotion s promotion location_ids = (s2, some pwl)) :
    pwl.promotion.scope = promotion.scope := by
  simp only [create_promotion] at hok
  by_cases hsc : (promotionRowOfNew promotion).scope =
      BusinessPromotionScope.Location
  · rw [if_pos hsc] at hok
    split at hok
    · cases hok
    · rename_i s3 hmap
      rcases Option.map_eq_some'.mp hmap with ⟨js, hsync, rfl⟩
      obtain ⟨-, hpwl⟩ := Prod.mk.injEq .. ▸ hok
      obtain rfl := (Option.some.injEq .. ▸ hpwl)
      rfl
  · rw [if_neg hsc] at hok
    split at hok
    · rename_i heq; cases heq
    · rename_i s3 heq
      obtain ⟨-, hpwl⟩ := Prod.mk.injEq .. ▸ hok
      obtain rfl := (Option.some.injEq .. ▸ hpwl)
      rfl

theorem update_promotion_ok_scope (s : DbState) (promotion : BusinessPromotion)
    (location_ids : List Uuid) (s2 : DbState)
    (pwl : BusinessPromotionWithLocations)
    (hok : update_promotion s promotion location_ids = (s2, some pwl)) :
    pwl.promotion.scope = promotion.scope := by
  simp only [update_promotion] at hok
  split at hok
  · cases hok
  · rename_i row hfind
    by_cases hsc : (applyPromotionUpdate promotion row).scope =
        BusinessPromotionScope.Location
    · rw [if_pos hsc] at hok
      split at hok
      · cases hok
      · rename_i s3 hmap
        rcases Option.map_eq_some'.mp hmap with ⟨js, hsync, rfl⟩
        obtain ⟨-, hpwl⟩ := Prod.mk.injEq .. ▸ hok
        obtain rfl := (Option.some.injEq .. ▸ hpwl)
        rfl
    · rw [if_neg hsc] at hok
      split at hok
      · rename_i heq; cases heq
      · rename_i s3 heq
        obtain ⟨-, hpwl⟩ := Prod.mk.injEq .. ▸ hok
        obtain rfl := (Option.some.injEq .. ▸ hpwl)
        rfl

theorem create_validator_ok_location_ids (body : CreateBusinessPromotionRequest)
    (u : Unit)
    (hok : create_promotion_validate_business_rules body = Except.ok u)
    (hscope : body.scope = BusinessPromotionScope.Location) :
    body.location_ids ≠ [] := by
  intro hnil
  unfold create_promotion_validate_business_rules at hok
  by_cases hends : body.ends_at ≤ body.starts_at
  · rw [if_pos hends] at hok; cases hok
  · rw [if_neg hends, if_pos ⟨hscope, hnil⟩] at hok; cases hok

theorem update_validator_ok_location_ids (body : UpdateBusinessPromotionRequest)
    (u : Unit)
    (hok : update_promotion_validate_business_rules body = Except.ok u)
    (hscope : body.scope = BusinessPromotionScope.Location) :
    body.location_ids ≠ [] := by
  intro hnil
  unfold update_promotion_validate_business_rules at hok
  by_cases hends : body.ends_at ≤ body.starts_at
  · rw [if_pos hends] at hok; cases hok
  · rw [if_neg hends, if_pos ⟨hscope, hnil⟩] at hok; cases hok

/-! ## Claims -/

/-- C10: for every invocation of the `list_pending_reviews` handler, the
pagination parameters passed to the database query are normalized before
the query runs: a missing limit defaults to 50, any supplied limit is
clamped into [1, 100], a missing offset defaults to 0 and a negative
offset is raised to 0, so the query always receives 1 ≤ limit ≤ 100 and
offset ≥ 0. -/
theorem pending_reviews_pagination_normalized (s : DbState)
    (queryLimit queryOffset : Option Int) :
    1 ≤ pending_reviews_limit queryLimit ∧
    pending_reviews_limit queryLimit ≤ 100 ∧
    0 ≤ pending_reviews_offset queryOffset ∧
    (queryLimit = none → pending_reviews_limit queryLimit = 50) ∧
    (queryOffset = none → pending_reviews_offset queryOffset = 0) ∧
    list_pending_reviews s queryLimit queryOffset =
      db_list_pending_reviews s (pending_reviews_limit queryLimit)
        (pending_reviews_offset queryOffset) := by
  refine ⟨?_, ?_, ?_, ?_, ?_, rfl⟩
  · cases queryLimit with
    | none => simp [pending_reviews_limit, rustClamp, Option.getD]
    | some v =>
      simp only [pending_reviews_limit, rustClamp, Option.getD]
      split_ifs <;> omega
  · cases queryLimit with
    | none => simp [pending_reviews_limit, rustClamp, Option.getD]
    | some v =>
      simp only [pending_reviews_limit, rustClamp, Option.getD]
      split_ifs <;> omega
  · cases queryOffset with
    | none => simp [pending_reviews_offset, Option.getD]
    | some v =>
      simp only [pending_reviews_offset, Option.getD]
      exact le_max_right v 0
  · intro h; subst h; rfl
  · intro h; subst h; rfl

/-- Witness for C10 at a concrete query. -/
theorem pending_reviews_pagination_normalized_witness :
    1 ≤ pending_reviews_limit (some 250) ∧
    pending_reviews_limit (some 250) ≤ 100 ∧
    0 ≤ pending_reviews_offset (some (-3)) ∧
    (some (250 : Int) = none → pending_reviews_limit (some 250) = 50) ∧
    (some (-3 : Int) = none → pending_reviews_offset (some (-3)) = 0) ∧
    list_pending_reviews emptyState (some 250) (some (-3)) =
      db_list_pending_reviews emptyState (pending_reviews_limit (some 250))
        (pending_reviews_offset (some (-3))) :=
  pending_reviews_pagination_normalized emptyState (some 250) (some (-3))

/-- C2: submitting a review action with `action = Reject` and no
`rejection_reason` on an existing registration fails with a validation
error (400) and leaves the whole database state unchanged: no review
event row is created and the registration is untouched. -/
theorem reject_without_reason_rejected (s : DbState) (now : Timestamp)
    (event_id registration_id : Uuid) (payload : ReviewActionRequest)
    (existing : BusinessRegistration)
    (hreg : get_registration_by_id s registration_id = some existing)
    (haction : payload.action = ReviewAction.Reject)
    (hreason : payload.rejection_reason = none) :
    submit_review_action s now event_id registration_id payload =
      (s, .badRequest "Rejection reason is required when rejecting a registration") := by
  unfold submit_review_action
  rw [hreg]
  simp [haction, hreason]

/-- C3: every call to `record_review_event` is atomic — on success both
the review-event insert and the registration status update are visible
(and nothing else changed), and on failure the returned state is exactly
the input state, with no partial write. -/
theorem record_review_event_atomic (s : DbState) (now : Timestamp)
    (event_id registration_id : Uuid) (reviewer_id : Option Uuid)
    (reviewer_name : Option String) (action : ReviewAction)
    (notes rejection_reason : Option String)
    (new_status : BusinessVerificationStatus) :
    (∀ s2 reg, record_review_event s now event_id registration_id reviewer_id
        reviewer_name action notes rejection_reason new_status = (s2, some reg) →
      s2.review_events = s.review_events ++
        [{ id := event_id, registration_id := registration_id,
           reviewer_id := reviewer_id, reviewer_name := reviewer_name,
           action := action, notes := notes,
           rejection_reason := rejection_reason, created_at := now }] ∧
      (get_registration_by_id s2 registration_id).map (fun r => r.status) =
        some new_status ∧
      reg.status = new_status ∧
      s2.locations = s.locations ∧
      s2.promotions = s.promotions ∧
      s2.promotion_locations = s.promotion_locations) ∧
    (∀ s2, record_review_event s now event_id registration_id reviewer_id
        reviewer_name action notes rejection_reason new_status = (s2, none) →
      s2 = s) := by
  constructor
  · intro s2 reg h
    simp only [record_review_event] at h
    cases hfind : s.registrations.find? (fun r => decide (r.id = registration_id)) with
    | none => rw [hfind] at h; cases h
    | some row =>
      rw [hfind] at h
      obtain ⟨rfl, hreg⟩ := Prod.mk.injEq .. ▸ h
      obtain rfl := Option.some.injEq .. ▸ hreg
      refine ⟨rfl, ?_, by simp [applyReviewUpdate], rfl, rfl, rfl⟩
      show ((updateRows (fun r => decide (r.id = registration_id))
          (applyReviewUpdate reviewer_id reviewer_name notes rejection_reason
            new_status now) s.registrations).find?
          (fun r => decide (r.id = registration_id))).map (fun r => r.status) =
        some new_status
      rw [updateRows_find? _ _ _ (fun r => by simp [applyReviewUpdate]), hfind]
      simp [applyReviewUpdate]
  · intro s2 h
    simp only [record_review_event] at h
    cases hfind : s.registrations.find? (fun r => decide (r.id = registration_id)) with
    | none => rw [hfind] at h; exact (Prod.mk.injEq .. ▸ h).1.symm
    | some row => rw [hfind] at h; cases h

/-- Witness for C3 at a concrete state. -/
theorem record_review_event_atomic_witness :
    (∀ s2 reg, record_review_event sampleState 5 9 1 (some 3) (some "Admin")
        ReviewAction.Approve none none BusinessVerificationStatus.Approved =
          (s2, some reg) →
      s2.review_events = sampleState.review_events ++
        [{ id := 9, registration_id := 1, reviewer_id := some 3,
           reviewer_name := some "Admin", action := ReviewAction.Approve,
           notes := none, rejection_reason := none, created_at := 5 }] ∧
      (get_registration_by_id s2 1).map (fun r => r.status) =
        some BusinessVerificationStatus.Approved ∧
      reg.status = BusinessVerificationStatus.Approved ∧
      s2.locations = sampleState.locations ∧
      s2.promotions = sampleState.promotions ∧
      s2.promotion_locations = sampleState.promotion_locations) ∧
    (∀ s2, record_review_event sampleState 5 9 1 (some 3) (some "Admin")
        ReviewAction.Approve none none BusinessVerificationStatus.Approved =
          (s2, none) →
      s2 = sampleState) :=
  record_review_event_atomic sampleState 5 9 1 (some 3) (some "Admin")
    ReviewAction.Approve none none BusinessVerificationStatus.Approved

/-- C1: for every existing registration and every successful review
action submitted via `submit_review_action`, the registration's new
status (both in the returned payload and in the stored row) is determined
by the action: Approve→Approved, Reject→Rejected,
RequestMoreInfo→UnderReview, Suspend→Suspended, Resume→UnderReview, and
Comment leaves the status equal to the pre-call status. -/
theorem review_action_status_mapping (s : DbState) (now : Timestamp)
    (event_id registration_id : Uuid) (payload : ReviewActionRequest)
    (existing : BusinessRegistration) (s2 : DbState)
    (details : BusinessRegistrationWithHistory)
    (hreg : get_registration_by_id s registration_id = some existing)
    (hok : submit_review_action s now event_id registration_id payload =
      (s2, .ok details)) :
    details.registration.status =
      review_action_new_status payload.action existing.status ∧
    (get_registration_by_id s2 registration_id).map (fun r => r.status) =
      some (review_action_new_status payload.action existing.status) ∧
    (payload.action = ReviewAction.Comment →
      details.registration.status = existing.status) := by
  have hfind : s.registrations.find? (fun r => decide (r.id = registration_id)) =
      some existing := hreg
  unfold submit_review_action at hok
  rw [hreg] at hok
  split_ifs at hok with h1 h2
  · cases hok
  · cases hok
  · simp only [record_review_event, hfind] at hok
    obtain ⟨rfl, hdet⟩ := Prod.mk.injEq .. ▸ hok
    obtain rfl := HandlerResult.ok.injEq .. ▸ hdet
    refine ⟨by simp [build_registration_details, applyReviewUpdate], ?_, ?_⟩
    · show ((updateRows (fun r => decide (r.id = registration_id))
          (applyReviewUpdate payload.reviewer_id payload.reviewer_name
            payload.notes payload.rejection_reason
            (review_action_new_status payload.action existing.status) now)
          s.registrations).find?
          (fun r => decide (r.id = registration_id))).map (fun r => r.status) =
        some (review_action_new_status payload.action existing.status)
      rw [updateRows_find? _ _ _ (fun r => by simp [applyReviewUpdate]), hfind]
      simp [applyReviewUpdate]
    · intro hc
      simp [build_registration_details, applyReviewUpdate,
        review_action_new_status, hc]

/-- Witness for C1: an Approve action on a concrete pending registration. -/
theorem review_action_status_mapping_witness :
    (build_registration_details c1State c1Updated).registration.status =
      review_action_new_status ReviewAction.Approve sampleRegistration.status ∧
    (get_registration_by_id c1State 1).map (fun r => r.status) =
      some (review_action_new_status ReviewAction.Approve
        sampleRegistration.status) ∧
    (ReviewAction.Approve = ReviewAction.Comment →
      (build_registration_details c1State c1Updated).registration.status =
        sampleRegistration.status) :=
  review_action_status_mapping sampleState 5 9 1 approvePayload
    sampleRegistration c1State (build_registration_details c1State c1Updated)
    rfl (by decide)

/-- C4 counterexample: on a registration with two review events created
at times 0 and 1, `list_review_events` returns the newer event first —
the result is not ordered by creation time ascending. -/
theorem list_review_events_not_ascending :
    (list_review_events sampleStateTwoEvents 1).map (fun e => e.created_at) =
      [1, 0] ∧
    ¬ List.Pairwise (fun a b : Timestamp => a ≤ b) [(1 : Timestamp), 0] := by
  constructor
  · decide
  · decide

/-- C4 amended: for every registration, `list_review_events` returns all
of that registration's review events ordered by creation time DESCENDING
(newest first) — the query is `ORDER BY created_at DESC`. -/
theorem list_review_events_desc_order (s : DbState) (registration_id : Uuid) :
    List.Perm (list_review_events s registration_id)
      (s.review_events.filter
        (fun e => decide (e.registration_id = registration_id))) ∧
    List.Pairwise (fun a b => b.created_at ≤ a.created_at)
      (list_review_events s registration_id) := by
  constructor
  · exact sortBy_perm _ _
  · have h := sortBy_pairwise reviewEventDescLe
      (fun a b c hab hbc => by
        simp only [reviewEventDescLe, decide_eq_true_iff] at hab hbc ⊢
        exact Nat.le_trans hbc hab)
      (fun a b => by
        simp only [reviewEventDescLe, decide_eq_true_iff]
        exact Nat.le_total b.created_at a.created_at)
      (s.review_events.filter
        (fun e => decide (e.registration_id = registration_id)))
    exact h.imp (fun hab => by
      simpa [reviewEventDescLe, decide_eq_true_iff] using hab)

/-- C9 counterexample: on an empty database,
`get_or_create_auto_registration` inserts a new registration row whose
stored status is Approved — not Pending. -/
theorem auto_registration_created_approved :
    ((get_or_create_auto_registration emptyState 0 42 7 "Unit" "Food").1.registrations.map
      (fun r => r.status)) = [BusinessVerificationStatus.Approved] ∧
    BusinessVerificationStatus.Approved ≠ BusinessVerificationStatus.Pending := by
  constructor
  · decide
  · decide

/-- C9 amended: registrations created through the submission path
(`into_new_registration` feeding `create_registration`) are stored with
status Pending; the exception is `get_or_create_auto_registration`, which
— when the user has no approved registration — inserts a new
auto-approved registration stored with status Approved. -/
theorem registration_initial_status (body : CreateBusinessRegistrationRequest)
    (fresh_id : Uuid) (now : Timestamp) (s : DbState)
    (locations : List NewBusinessLocation)
    (s3 : DbState) (now2 : Timestamp) (fresh2 user_id : Uuid)
    (unit_name category : String)
    (hnone : ∀ r ∈ s3.registrations,
      ¬(r.user_id = user_id ∧ r.status = BusinessVerificationStatus.Approved)) :
    (into_new_registration body fresh_id now).status =
      BusinessVerificationStatus.Pending ∧
    (create_registration s now (into_new_registration body fresh_id now)
        locations).1.registrations =
      s.registrations ++
        [registrationRowOfNew (into_new_registration body fresh_id now)] ∧
    (registrationRowOfNew (into_new_registration body fresh_id now)).status =
      BusinessVerificationStatus.Pending ∧
    (∃ row,
      (get_or_create_auto_registration s3 now2 fresh2 user_id unit_name
        category).1.registrations = s3.registrations ++ [row] ∧
      row.status = BusinessVerificationStatus.Approved ∧ row.id = fresh2) := by
  refine ⟨rfl, ?_, rfl, ?_⟩
  · simp only [create_registration]
    rw [insertLocationList_registrations]
  · have hfilter : s3.registrations.filter
        (fun r => decide (r.user_id = user_id) &&
          decide (r.status = BusinessVerificationStatus.Approved)) = [] := by
      refine List.filter_eq_nil_iff.mpr (fun r hr => ?_)
      have h := hnone r hr
      simp only [Bool.and_eq_true, decide_eq_true_iff]
      tauto
    simp only [get_or_create_auto_registration, hfilter, sortBy]
    exact ⟨_, rfl, rfl, rfl⟩

/-- Witness for C9's amended theorem on concrete inputs. -/
theorem registration_initial_status_witness :
    (into_new_registration sampleRegistrationRequest 2 0).status =
      BusinessVerificationStatus.Pending ∧
    (create_registration emptyState 0
        (into_new_registration sampleRegistrationRequest 2 0) []).1.registrations =
      emptyState.registrations ++
        [registrationRowOfNew (into_new_registration sampleRegistrationRequest 2 0)] ∧
    (registrationRowOfNew (into_new_registration sampleRegistrationRequest 2 0)).status =
      BusinessVerificationStatus.Pending ∧
    (∃ row,
      (get_or_create_auto_registration emptyState 0 42 7 "Unit" "Food").1.registrations =
        emptyState.registrations ++ [row] ∧
      row.status = BusinessVerificationStatus.Approved ∧ row.id = 42) :=
  registration_initial_status sampleRegistrationRequest 2 0 emptyState []
    emptyState 0 42 7 "Unit" "Food" (by intro r hr; cases hr)

/-- C6: a registration's location set is never emptied by the delete
handler — under a unique-id store holding at least one location for the
registration, every outcome of `delete_location_for_registration` leaves
at least one location; in particular a request to delete the
registration's sole remaining location is rejected with 400
"At least one location is required" and deletes nothing. -/
theorem sole_location_delete_rejected (s : DbState) (now : Timestamp)
    (registration_id location_id : Uuid)
    (hnodup : (s.locations.map (fun l => l.id)).Nodup)
    (hne : 1 ≤ location_count s registration_id) :
    1 ≤ location_count
      (delete_location_for_registration s now registration_id location_id).1
      registration_id ∧
    (∀ existing target,
      get_registration_by_id s registration_id = some existing →
      list_locations_for_registration s registration_id = [target] →
      target.id = location_id →
      delete_location_for_registration s now registration_id location_id =
        (s, .badRequest "At least one location is required")) := by
  refine ⟨delete_location_for_registration_nonempty s now registration_id
    location_id hnodup hne, ?_⟩
  intro existing target hreg hsole hid
  simp only [delete_location_for_registration, hreg, hsole]
  rw [List.find?_cons_of_pos _ (by simp [hid])]
  simp

/-- Witness for C6: deleting the sole location of a concrete
registration. -/
theorem sole_location_delete_rejected_witness :
    1 ≤ location_count
      (delete_location_for_registration sampleState 5 1 10).1 1 ∧
    (∀ existing target,
      get_registration_by_id sampleState 1 = some existing →
      list_locations_for_registration sampleState 1 = [target] →
      target.id = 10 →
      delete_location_for_registration sampleState 5 1 10 =
        (sampleState, .badRequest "At least one location is required")) :=
  sole_location_delete_rejected sampleState 5 1 10 (by decide) (by decide)

/-- C5: under a unique-id store satisfying the at-most-one-primary
invariant, every location create (`create_location_for_registration`, via
`insert_location_with_tx`) and every location update (`update_location`)
preserves the invariant; and whenever a location is stored with
`is_primary = true`, `is_primary` is cleared on all sibling locations of
the same registration within the same transaction. -/
theorem primary_location_uniqueness (s : DbState) (now : Timestamp)
    (newloc : NewBusinessLocation) (location : BusinessLocation) (rid : Uuid)
    (hnodup : (s.locations.map (fun l => l.id)).Nodup)
    (hinv : ∀ r, primary_count s r ≤ 1) :
    primary_count (create_location_for_registration s now newloc).1 rid ≤ 1 ∧
    primary_count (update_location s now location).1 rid ≤ 1 ∧
    (newloc.is_primary = true →
      ∀ l ∈ (create_location_for_registration s now newloc).1.locations,
        l.registration_id = newloc.registration_id → l.id ≠ newloc.id →
        l.is_primary = false) ∧
    (location.is_primary = true →
      ∀ s2 r, update_location s now location = (s2, some r) →
      ∀ l ∈ s2.locations,
        l.registration_id = location.registration_id → l.id ≠ location.id →
        l.is_primary = false) := by
  refine ⟨?_, ?_, ?_, ?_⟩
  · -- insert preserves the invariant
    simp only [create_location_for_registration, insert_location_with_tx,
      primary_count]
    by_cases hp : newloc.is_primary
    · simp only [hp, if_true, List.countP_append]
      by_cases hrid : rid = newloc.registration_id
      · have hz : (updateRows
            (fun r => decide (r.registration_id = newloc.registration_id))
            (fun r => { r with is_primary := false }) s.locations).countP
            (fun l => decide (l.registration_id = rid) && l.is_primary) = 0 := by
          refine countP_updateRows_eq_zero _ _ _ _ (fun r _ => by simp)
            (fun r hq => ?_)
          subst hrid
          simp only [decide_eq_false_iff_not] at hq
          simp [hq]
        rw [hz]
        simpa using countP_singleton_le_one
          (fun l => decide (l.registration_id = rid) && l.is_primary)
          (locationRowOfNew newloc now)
      · have hc : (updateRows
            (fun r => decide (r.registration_id = newloc.registration_id))
            (fun r => { r with is_primary := false }) s.locations).countP
            (fun l => decide (l.registration_id = rid) && l.is_primary) =
            s.locations.countP
              (fun l => decide (l.registration_id = rid) && l.is_primary) := by
          refine countP_updateRows_congr _ _ _ _ (fun r hq => ?_)
          simp only [decide_eq_true_iff] at hq
          have : ¬(r.registration_id = rid) := by rw [hq]; exact fun h => hrid h.symm
          simp [this]
        rw [hc]
        have hrec : (List.countP
            (fun l => decide (l.registration_id = rid) && l.is_primary)
            [locationRowOfNew newloc now]) = 0 := by
          have hnr : ¬(newloc.registration_id = rid) := fun h => hrid h.symm
          simp [List.countP_cons, locationRowOfNew, hnr]
        rw [hrec]
        simpa [primary_count] using hinv rid
    · rw [if_neg hp, List.countP_append]
      have hrec : (List.countP
          (fun l => decide (l.registration_id = rid) && l.is_primary)
          [locationRowOfNew newloc now]) = 0 := by
        have hip : (locationRowOfNew newloc now).is_primary = false := by
          simp only [locationRowOfNew]
          simpa using hp
        simp [List.countP_cons, hip]
      rw [hrec]
      simpa [primary_count] using hinv rid
  · -- update preserves the invariant
    rcases update_location_fst_locations s now location with h | h
    · unfold primary_count
      rw [h]
      exact hinv rid
    · unfold primary_count
      rw [h]
      by_cases hp : location.is_primary
      · rw [if_pos hp]
        simp only [updateRows, List.map_map]
        by_cases hrid : rid = location.registration_id
        · refine le_trans (?_ :
            _ ≤ s.locations.countP (fun l => decide (l.id = location.id)))
            (countP_key_le_one (fun l => l.id) location.id s.locations hnodup)
          rw [List.countP_map]
          refine List.countP_mono_left (fun x _ hx => ?_)
          by_cases hxi : x.id = location.id
          · simp [hxi]
          · exfalso
            by_cases hxr : x.registration_id = location.registration_id
            · simp [Function.comp, hxr, hxi, applyLocationUpdate] at hx
            · simp [Function.comp, hxr, hxi, hrid] at hx
        · have hinv2 : ∀ t, s.locations.countP
              (fun l => decide (l.registration_id = t) && l.is_primary) ≤ 1 :=
            hinv
          rw [List.countP_map]
          refine le_trans (le_of_eq (List.countP_congr (fun x _ => ?_)))
            (hinv2 rid)
          by_cases hxr : x.registration_id = location.registration_id
          · have hnr : ¬(x.registration_id = rid) := by
              rw [hxr]; exact fun hcon => hrid hcon.symm
            have hnr2 : ¬(location.registration_id = rid) :=
              fun hcon => hrid hcon.symm
            by_cases hxi : x.id = location.id <;>
              simp [Function.comp, hxr, hxi, applyLocationUpdate, hnr, hnr2]
          · simp [Function.comp, hxr]
      · rw [if_neg hp]
        refine le_trans (countP_updateRows_le _ _ _ _ (fun r _ hx => ?_))
          (hinv rid)
        exfalso
        have hip : (applyLocationUpdate location now r).is_primary = false := by
          simp [applyLocationUpdate]
          simpa using hp
        simp [hip] at hx
  · -- insert clears all siblings when storing a primary row
    intro hp l hl hlr hlid
    simp only [create_location_for_registration, insert_location_with_tx, hp,
      if_true] at hl
    rcases List.mem_append.mp hl with hl | hl
    · rcases List.mem_map.mp hl with ⟨x, hx, rfl⟩
      by_cases hq : decide (x.registration_id = newloc.registration_id) = true
      · simp [hq]
      · exfalso
        rw [if_neg (by simpa using hq)] at hlr
        exact (by simpa using hq : ¬_) hlr
    · exfalso
      have : l = locationRowOfNew newloc now := by simpa using hl
      exact hlid (by rw [this]; rfl)
  · -- update clears all siblings when storing a primary row
    intro hp s2 r hupd l hl hlr hlid
    simp only [update_location, hp, if_true] at hupd
    split at hupd
    · cases hupd
    · obtain ⟨rfl, -⟩ := Prod.mk.injEq .. ▸ hupd
      simp only [updateRows, List.map_map] at hl
      rcases List.mem_map.mp hl with ⟨x, hx, rfl⟩
      by_cases hxi : x.id = location.id
      · exfalso
        by_cases hxr : x.registration_id = location.registration_id
        · simp [Function.comp, hxr, hxi, applyLocationUpdate] at hlid
        · simp [Function.comp, hxr, hxi] at hlr
      · by_cases hxr : x.registration_id = location.registration_id
        · simp [Function.comp, hxr, hxi]
        · exfalso
          simp [Function.comp, hxr, hxi] at hlr

/-- Witness for C5 at a concrete two-location registration. -/
theorem primary_location_uniqueness_witness :
    primary_count (create_location_for_registration sampleStateTwoLocations 5
      { id := 12, registration_id := 1, business_id := none, label := none,
        formatted_address := "Second Street 2", street := none, city := none,
        state_region := none, postal_code := none, country := none,
        latitude := none, longitude := none, google_place_id := none,
        timezone := none, phone := none, is_primary := true, notes := none,
        metadata := "" }).1 1 ≤ 1 ∧
    primary_count (update_location sampleStateTwoLocations 5
      (sampleLocation 11 1 true 1)).1 1 ≤ 1 ∧
    ((true : Bool) = true →
      ∀ l ∈ (create_location_for_registration sampleStateTwoLocations 5
        { id := 12, registration_id := 1, business_id := none, label := none,
          formatted_address := "Second Street 2", street := none, city := none,
          state_region := none, postal_code := none, country := none,
          latitude := none, longitude := none, google_place_id := none,
          timezone := none, phone := none, is_primary := true, notes := none,
          metadata := "" }).1.locations,
        l.registration_id = 1 → l.id ≠ 12 → l.is_primary = false) ∧
    ((sampleLocation 11 1 true 1).is_primary = true →
      ∀ s2 r, update_location sampleStateTwoLocations 5
        (sampleLocation 11 1 true 1) = (s2, some r) →
      ∀ l ∈ s2.locations,
        l.registration_id = 1 → l.id ≠ 11 → l.is_primary = false) :=
  primary_location_uniqueness sampleStateTwoLocations 5
    { id := 12, registration_id := 1, business_id := none, label := none,
      formatted_address := "Second Street 2", street := none, city := none,
      state_region := none, postal_code := none, country := none,
      latitude := none, longitude := none, google_place_id := none,
      timezone := none, phone := none, is_primary := true, notes := none,
      metadata := "" }
    (sampleLocation 11 1 true 1) 1 (by decide)
    (by
      intro r
      by_cases h : (1 : Nat) = r <;>
        simp [primary_count, sampleStateTwoLocations, sampleLocation,
          List.countP_cons, h])

/-- C7: creating or updating a Location-scoped promotion with a supplied
location id that does not belong to the promotion's registration fails
entirely with `RowNotFound` — the membership count check of
`sync_promotion_locations` runs before any join row is inserted, the
transaction rolls back, and the returned state (hence the association
set) equals the pre-operation state. -/
theorem promotion_location_mismatch_rejected (s : DbState)
    (npromo : NewBusinessPromotion) (upromo : BusinessPromotion)
    (location_ids : List Uuid) (bad : Uuid)
    (hnodup : (s.locations.map (fun l => l.id)).Nodup)
    (hmem : bad ∈ location_ids)
    (hscope_c : npromo.scope = BusinessPromotionScope.Location)
    (hscope_u : upromo.scope = BusinessPromotionScope.Location)
    (hbad_c : ∀ l ∈ s.locations,
      ¬(l.registration_id = npromo.registration_id ∧ l.id = bad))
    (hbad_u : ∀ l ∈ s.locations,
      ¬(l.registration_id = upromo.registration_id ∧ l.id = bad)) :
    create_promotion s npromo location_ids = (s, none) ∧
    update_promotion s upromo location_ids = (s, none) := by
  have hmem' := (mem_dedupe_uuids location_ids bad).mpr hmem
  constructor
  · simp only [create_promotion]
    rw [if_pos (show (promotionRowOfNew npromo).scope =
      BusinessPromotionScope.Location from hscope_c)]
    rw [sync_promotion_locations_fails s.locations s.promotion_locations
      (promotionRowOfNew npromo).registration_id (promotionRowOfNew npromo).id
      (dedupe_uuids location_ids) bad hnodup hmem' hbad_c]
    rfl
  · simp only [update_promotion]
    cases hfind : s.promotions.find? (fun p => decide (p.id = upromo.id) &&
        decide (p.registration_id = upromo.registration_id)) with
    | none => rfl
    | some row =>
      simp only []
      have hrowreg : row.registration_id = upromo.registration_id := by
        have h := List.find?_some hfind
        exact of_decide_eq_true (Bool.and_eq_true .. |>.mp h).2
      have hbad_u2 : ∀ l ∈ s.locations,
          ¬(l.registration_id =
            (applyPromotionUpdate upromo row).registration_id ∧ l.id = bad) := by
        intro l hl
        have heq : (applyPromotionUpdate upromo row).registration_id =
            upromo.registration_id := hrowreg
        rw [heq]
        exact hbad_u l hl
      rw [if_pos (show (applyPromotionUpdate upromo row).scope =
        BusinessPromotionScope.Location from hscope_u)]
      rw [sync_promotion_locations_fails s.locations
        (s.promotion_locations.filter
          (fun j => !decide (j.promotion_id = (applyPromotionUpdate upromo row).id)))
        (applyPromotionUpdate upromo row).registration_id
        (applyPromotionUpdate upromo row).id
        (dedupe_uuids location_ids) bad hnodup hmem' hbad_u2]
      rfl

/-- Witness for C7: location id 99 belongs to no location of
registration 1 in the sample state. -/
theorem promotion_location_mismatch_rejected_witness :
    create_promotion sampleState sampleNewPromotion [99] =
      (sampleState, none) ∧
    update_promotion sampleState samplePromotionRow [99] =
      (sampleState, none) :=
  promotion_location_mismatch_rejected sampleState sampleNewPromotion
    samplePromotionRow [99] 99 (by decide) (by decide) (by decide) (by decide)
    (by decide) (by decide)

/-- C8: a promotion payload with `scope = Location` and an empty
`location_ids` list is rejected as a validation failure (400) with no
state change, by both the create and the update handler; and whenever
either handler succeeds with a Location-scoped promotion, the stored
promotion has at least one associated location join row. -/
theorem location_scope_requires_location_ids (s : DbState) (now : Timestamp)
    (fresh_id actor_id registration_id promotion_id : Uuid)
    (cbody : CreateBusinessPromotionRequest)
    (ubody : UpdateBusinessPromotionRequest)
    (existing : BusinessRegistration)
    (hreg : get_registration_by_id s registration_id = some existing)
    (hscope_c : cbody.scope = BusinessPromotionScope.Location)
    (hids_c : cbody.location_ids = [])
    (hscope_u : ubody.scope = BusinessPromotionScope.Location)
    (hids_u : ubody.location_ids = []) :
    (∃ msg, create_promotion_for_registration s now fresh_id actor_id
      registration_id cbody = (s, .badRequest msg)) ∧
    (∃ msg, update_promotion_for_registration s now actor_id registration_id
      promotion_id ubody = (s, .badRequest msg)) ∧
    (∀ (body2 : CreateBusinessPromotionRequest) s2 pwl,
      create_promotion_for_registration s now fresh_id actor_id registration_id
        body2 = (s2, .created pwl) →
      pwl.promotion.scope = BusinessPromotionScope.Location →
      1 ≤ promotion_location_count s2 pwl.promotion.id) ∧
    (∀ (body2 : UpdateBusinessPromotionRequest) s2 pwl,
      update_promotion_for_registration s now actor_id registration_id
        promotion_id body2 = (s2, .ok pwl) →
      pwl.promotion.scope = BusinessPromotionScope.Location →
      1 ≤ promotion_location_count s2 pwl.promotion.id) := by
  refine ⟨?_, ?_, ?_, ?_⟩
  · by_cases hends : cbody.ends_at ≤ cbody.starts_at
    · refine ⟨"La fecha de finalización debe ser posterior a la fecha de inicio", ?_⟩
      have hval : create_promotion_validate_business_rules cbody = Except.error
          "La fecha de finalización debe ser posterior a la fecha de inicio" := by
        unfold create_promotion_validate_business_rules
        rw [if_pos hends]
      simp only [create_promotion_for_registration, hreg, hval]
    · refine ⟨"Las promociones por ubicación requieren al menos una ubicación", ?_⟩
      have hval : create_promotion_validate_business_rules cbody = Except.error
          "Las promociones por ubicación requieren al menos una ubicación" := by
        unfold create_promotion_validate_business_rules
        rw [if_neg hends, if_pos ⟨hscope_c, hids_c⟩]
      simp only [create_promotion_for_registration, hreg, hval]
  · by_cases hends : ubody.ends_at ≤ ubody.starts_at
    · refine ⟨"La fecha de finalización debe ser posterior a la fecha de inicio", ?_⟩
      have hval : update_promotion_validate_business_rules ubody = Except.error
          "La fecha de finalización debe ser posterior a la fecha de inicio" := by
        unfold update_promotion_validate_business_rules
        rw [if_pos hends]
      simp only [update_promotion_for_registration, hreg, hval]
    · refine ⟨"Las promociones por ubicación requieren al menos una ubicación", ?_⟩
      have hval : update_promotion_validate_business_rules ubody = Except.error
          "Las promociones por ubicación requieren al menos una ubicación" := by
        unfold update_promotion_validate_business_rules
        rw [if_neg hends, if_pos ⟨hscope_u, hids_u⟩]
      simp only [update_promotion_for_registration, hreg, hval]
  · intro body2 s2 pwl hrun hscope
    simp only [create_promotion_for_registration, hreg] at hrun
    cases hval : create_promotion_validate_business_rules body2 with
    | error m =>
      rw [hval] at hrun
      simp at hrun
    | ok u =>
      rw [hval] at hrun
      simp only [into_new_promotion] at hrun
      split at hrun
      · simp at hrun
      · rename_i s3 pwl2 hcreate
        obtain ⟨rfl, h2⟩ := Prod.mk.injEq .. ▸ hrun
        obtain rfl := HandlerResult.created.injEq .. ▸ h2
        by_cases hsc : body2.scope = BusinessPromotionScope.Location
        · have hids := create_validator_ok_location_ids body2 u hval hsc
          rcases create_promotion_location_joins s _ body2.location_ids _ _
            hsc hids hcreate with ⟨hid, hcount⟩
          rw [hid]
          exact hcount
        · exfalso
          have hscEq := create_promotion_ok_scope s _ body2.location_ids _ _
            hcreate
          exact hsc (hscEq.symm.trans hscope)
  · intro body2 s2 pwl hrun hscope
    simp only [update_promotion_for_registration, hreg] at hrun
    cases hval : update_promotion_validate_business_rules body2 with
    | error m =>
      rw [hval] at hrun
      simp at hrun
    | ok u =>
      rw [hval] at hrun
      cases hget : get_promotion_with_locations s registration_id promotion_id with
      | none =>
        rw [hget] at hrun
        simp at hrun
      | some existingP =>
        rw [hget] at hrun
        simp only [promotion_apply_to_existing] at hrun
        split at hrun
        · simp at hrun
        · rename_i s3 pwl2 hupd
          obtain ⟨rfl, h2⟩ := Prod.mk.injEq .. ▸ hrun
          obtain rfl := HandlerResult.ok.injEq .. ▸ h2
          by_cases hsc : body2.scope = BusinessPromotionScope.Location
          · have hids := update_validator_ok_location_ids body2 u hval hsc
            rcases update_promotion_location_joins s _ body2.location_ids _ _
              hsc hids hupd with ⟨hid, hcount⟩
            rw [hid]
            exact hcount
          · exfalso
            have hscEq := update_promotion_ok_scope s _ body2.location_ids _ _
              hupd
            exact hsc (hscEq.symm.trans hscope)

/-- Witness for C8 at a concrete state and empty-id Location payloads. -/
theorem location_scope_requires_location_ids_witness :
    (∃ msg, create_promotion_for_registration sampleState 5 31 3 1
      (samplePromotionRequest BusinessPromotionScope.Location []) =
        (sampleState, .badRequest msg)) ∧
    (∃ msg, update_promotion_for_registration sampleState 5 3 1 30
      (samplePromotionUpdateRequest BusinessPromotionScope.Location []) =
        (sampleState, .badRequest msg)) ∧
    (∀ (body2 : CreateBusinessPromotionRequest) s2 pwl,
      create_promotion_for_registration sampleState 5 31 3 1 body2 =
        (s2, .created pwl) →
      pwl.promotion.scope = BusinessPromotionScope.Location →
      1 ≤ promotion_location_count s2 pwl.promotion.id) ∧
    (∀ (body2 : UpdateBusinessPromotionRequest) s2 pwl,
      update_promotion_for_registration sampleState 5 3 1 30 body2 =
        (s2, .ok pwl) →
      pwl.promotion.scope = BusinessPromotionScope.Location →
      1 ≤ promotion_location_count s2 pwl.promotion.id) :=
  location_scope_requires_location_ids sampleState 5 31 3 1 30
    (samplePromotionRequest BusinessPromotionScope.Location [])
    (samplePromotionUpdateRequest BusinessPromotionScope.Location [])
    sampleRegistration rfl rfl rfl rfl rfl

/-- Witness for C2 at a concrete state and payload. -/
theorem reject_without_reason_rejected_witness :
    submit_review_action sampleState 5 9 1
        { action := .Reject, notes := none, rejection_reason := none,
          reviewer_id := some 3, reviewer_name := some "Admin" } =
      (sampleState,
        .badRequest "Rejection reason is required when rejecting a registration") :=
  reject_without_reason_rejected sampleState 5 9 1
    { action := .Reject, notes := none, rejection_reason := none,
      reviewer_id := some 3, reviewer_name := some "Admin" }
    sampleRegistration rfl rfl rfl

end BusinessReview
